import Mathlib

/-!
Verification of the UPBGE Node.js SDK bridge (JS-to-host command protocol).

Shallow embedding of:
- the wire-protocol command extraction (`_extract_commands` in
  `python/game_engine/script_handler.py`),
- the host-side command interpreter (`_apply_commands`, same file),
- the script-side stand-in API and wrapped program emitted by
  `execute_with_context` (`python/runtime/nodejs.py`),
- the persistent-worker transport (`_ensure_worker` / `_worker_execute`),
- the controller entry point (`execute_controller_script`),
- the context-snapshot builder (`_build_context` in
  `python/game_engine/python_wrapper.py`).

Strings are modelled as `List Char` (`Str`); machine floats carried on the
wire are modelled as JSON numbers restricted to integers, which covers every
value these theorems evaluate and never affects control flow, since the code
under study only moves the values around or compares lengths.
-/

namespace UpbgeBridge

/-- Characters of a Python/JS string. -/
abbrev Str := List Char

/-- JSON values as exchanged on the bridge wire. Numbers are modelled as exact
rationals (see module comment); every numeric literal the code manipulates,
including the defaults `-9.81`, `0.5`, `0.4` and `0.2`, is such a rational and
the code performs no arithmetic that rationals do not reproduce exactly.
Object fields keep insertion order; the inputs used in this development never
repeat a key. -/
inductive J where
  | null : J
  | bool : Bool → J
  | num : Rat → J
  | str : Str → J
  | arr : List J → J
  | obj : List (Str × J) → J

/-- Python truthiness of a JSON-shaped value (`if x:`). -/
def pyTruthy : J → Bool
  | .null => false
  | .bool b => b
  | .num n => decide (n ≠ 0)
  | .str s => !s.isEmpty
  | .arr xs => !xs.isEmpty
  | .obj kvs => !kvs.isEmpty

/-- Association-list lookup (first binding wins; the values in this
development never repeat keys, matching Python dict semantics there). -/
def assocFind {α : Type} : List (Str × α) → Str → Option α
  | [], _ => none
  | (k₀, v) :: rest, k => if k₀ = k then some v else assocFind rest k

/-- Association-list update, replacing the first binding of the key or
appending a new one (Python `d[k] = v`). -/
def assocSet {α : Type} : List (Str × α) → Str → α → List (Str × α)
  | [], k, v => [(k, v)]
  | (k₀, v₀) :: rest, k, v =>
    if k₀ = k then (k, v) :: rest else (k₀, v₀) :: assocSet rest k v

/-- Association lookup for JSON objects. -/
def jLookup (kvs : List (Str × J)) (k : Str) : Option J := assocFind kvs k

/-- Python `d.get(k)`: `None` both when the key is missing and when the stored
value is JSON `null` (Python represents both as `None`). Non-dict receivers
raise in Python; callers of this model handle that case separately. -/
def pyGet (cmd : J) (k : Str) : Option J :=
  match cmd with
  | .obj kvs =>
    match jLookup kvs k with
    | some .null => none
    | some v => some v
    | none => none
  | _ => none

/-- Value of `d.get(k)` under Python `or`-chaining: missing key behaves as
`None`, i.e. JSON `null`. -/
def pyGetJ (cmd : J) (k : Str) : J :=
  match pyGet cmd k with
  | some v => v
  | none => J.null

/-- Python `a or b` on JSON-shaped values. -/
def pyOrJ (a b : J) : J := if pyTruthy a then a else b

/-- String value of a field, when the field holds a string (Python equality
`x == "lit"` is `False` for any non-string `x`). -/
def pyGetStr (cmd : J) (k : Str) : Option Str :=
  match pyGet cmd k with
  | some (.str s) => some s
  | _ => none

/-- Python `len(x)` on values for which `len` is defined; `none` models the
`TypeError` raised otherwise (always caught by the interpreter loop). -/
def pyLen : J → Option Nat
  | .str s => some s.length
  | .arr xs => some xs.length
  | .obj kvs => some kvs.length
  | _ => none

/-- Whether a JSON value is a numeric scalar, i.e. `float(x)` succeeds. -/
def jIsNum : J → Bool
  | .num _ => true
  | .bool _ => true
  | _ => false

/-- First three elements of a list field when `len(v) >= 3` holds and all three
convert with `float()`; `none` models the raising paths (caught and skipped). -/
def jVec3 : J → Option (List J)
  | .arr (a :: b :: c :: _) =>
    if jIsNum a && jIsNum b && jIsNum c then some [a, b, c] else none
  | _ => none

/-! ## Python string helpers used by the wire protocol -/

/-- Whitespace as recognised by Python `str.strip()`. -/
def isPySpace (c : Char) : Bool :=
  c = ' ' || c = '\t' || c = '\n' || c = '\r' || c = '\x0b' || c = '\x0c'

/-- Python `sub in s` (substring containment). -/
def pyIn (sub : Str) : Str → Bool
  | [] => sub.isEmpty
  | c :: rest => sub.isPrefixOf (c :: rest) || pyIn sub rest

/-- Python `s.find(sub)`: index of the first occurrence. -/
def findSub (sub : Str) : Str → Option Nat
  | [] => if sub.isEmpty then some 0 else none
  | c :: rest =>
    if sub.isPrefixOf (c :: rest) then some 0
    else (findSub sub rest).map (· + 1)

/-- Python `s.strip()`. -/
def pyStrip (s : Str) : Str :=
  ((s.dropWhile isPySpace).reverse.dropWhile isPySpace).reverse

/-- Worker accumulator for `pySplitlines`. -/
def splitLinesAux : Str → Str → List Str
  | [], acc => if acc.isEmpty then [] else [acc.reverse]
  | c :: rest, acc =>
    if c = '\n' then acc.reverse :: splitLinesAux rest []
    else splitLinesAux rest (c :: acc)

/-- Python `s.splitlines()` for `\n`-separated text (the only separator the
bridge emits: every stream line in this system ends in `\n`). -/
def pySplitlines (s : Str) : List Str := splitLinesAux s []

/-- Everything after the first tab character (`s.split("\t", 1)[1]`); callers
check the tab is present first. -/
def afterFirstTab (s : Str) : Str :=
  (s.dropWhile (fun c => c != '\t')).drop 1

/-- Wire marker `___BGE_CMDS___` (script_handler.py line 585). -/
def cmdMarker : Str := "___BGE_CMDS___".data

/-! ## Embedding of `_extract_commands` (script_handler.py lines 574-609) -/

/-- Payload selection loop of `_extract_commands`: scan the lines, take the
first one containing the marker, keep the text after the marker, strip it, and
drop an optional `id`+tab prefix. Empty string when no line has the marker. -/
def findMarkerPayload : List Str → Str
  | [] => []
  | line :: rest =>
    if pyIn cmdMarker line then
      match findSub cmdMarker line with
      | some idx =>
        let r := pyStrip (line.drop (idx + cmdMarker.length))
        if pyIn ['\t'] r then afterFirstTab r else r
      | none => []
    else findMarkerPayload rest

/-- Embedding of `_extract_commands`. `decode` stands for `json.loads`
(returning `none` where `loads` raises); the theorems about failure paths are
stated for an arbitrary decoder, and concrete runs instantiate it with the
executable `jsonDecode` below. -/
def extractCommands (decode : Str → Option J) (output : Str) : List J :=
  if output.isEmpty then []
  else
    let p := findMarkerPayload (pySplitlines output)
    if p.isEmpty then []
    else
      match decode p with
      | some (J.arr xs) => xs
      | _ => []

/-- Raw result of one external-process run: stdout text, stderr text, and the
success flag (`returncode == 0`). -/
structure ExecResult where
  stdout : Str
  stderr : Str
  success : Bool
deriving Repr, DecidableEq

/-- Command extraction as used on a process result: it reads only the stdout
text (`_extract_commands(output)`). -/
def extractFromResult (decode : Str → Option J) (r : ExecResult) : List J :=
  extractCommands decode r.stdout

/-! ## Executable fragment of `json.loads` / `JSON.stringify`

Partial model of the JSON codec: integers, strings with the common
single-character escapes, booleans, `null`, arrays and objects. Inputs outside
this fragment (floats, unicode escapes) make `jsonDecode` return `none`; all
statements about decode-failure behaviour are parameterised over an arbitrary
decoder, and `jsonDecode` is only evaluated on inputs where it agrees with
full JSON. -/

/-- Whitespace skipped by the JSON grammar. -/
def isJsonWs (c : Char) : Bool := c = ' ' || c = '\t' || c = '\n' || c = '\r'

/-- Leading decimal digits of a string, and the rest. -/
def takeDigits : Str → (Str × Str)
  | [] => ([], [])
  | c :: rest =>
    if c.isDigit then
      let (ds, r) := takeDigits rest
      (c :: ds, r)
    else ([], c :: rest)

/-- Numeric value of a digit string. -/
def digitsToNat (ds : Str) : Nat :=
  ds.foldl (fun a c => a * 10 + (c.toNat - 48)) 0

/-- String-literal body parser: input after the opening quote, accumulator of
decoded characters (reversed). Structural recursion, so closed parses reduce
definitionally. -/
def parseStrAux : Str → Str → Option (Str × Str)
  | [], _ => none
  | '"' :: rest, acc => some (acc.reverse, rest)
  | '\\' :: e :: r₂, acc =>
    if e = '"' then parseStrAux r₂ ('"' :: acc)
    else if e = '\\' then parseStrAux r₂ ('\\' :: acc)
    else if e = '/' then parseStrAux r₂ ('/' :: acc)
    else if e = 'n' then parseStrAux r₂ ('\n' :: acc)
    else if e = 't' then parseStrAux r₂ ('\t' :: acc)
    else if e = 'r' then parseStrAux r₂ ('\r' :: acc)
    else none
  | ['\\'], _ => none
  | c :: rest, acc => parseStrAux rest (c :: acc)

/-- Parser mode: a full value, the elements of a nonempty array, or the
members of a nonempty object (with accumulators in reverse). One mode
argument keeps the whole parser a single structural recursion on fuel. -/
inductive PMode where
  | val : PMode
  | arrElems : List J → PMode
  | objElems : List (Str × J) → PMode

/-- JSON parser (fuel-bounded; fuel certifies termination only, any fuel at
least twice the input length gives the same answer). -/
def parseM : Nat → PMode → Str → Option (J × Str)
  | 0, _, _ => none
  | fuel + 1, .val, s =>
    (match s.dropWhile isJsonWs with
     | [] => none
     | c :: rest =>
       if c = 'n' then
         if "ull".data.isPrefixOf rest then some (J.null, rest.drop 3) else none
       else if c = 't' then
         if "rue".data.isPrefixOf rest then some (J.bool true, rest.drop 3) else none
       else if c = 'f' then
         if "alse".data.isPrefixOf rest then some (J.bool false, rest.drop 4) else none
       else if c = '"' then
         match parseStrAux rest [] with
         | some (cs, r) => some (J.str cs, r)
         | none => none
       else if c = '-' then
         match takeDigits rest with
         | ([], _) => none
         | (ds, r) => some (J.num (-(digitsToNat ds : Rat)), r)
       else if c.isDigit then
         match takeDigits (c :: rest) with
         | (ds, r) => some (J.num (digitsToNat ds : Rat), r)
       else if c = '[' then
         match rest.dropWhile isJsonWs with
         | ']' :: r => some (J.arr [], r)
         | _ => parseM fuel (.arrElems []) rest
       else if c = '\x7b' then
         match rest.dropWhile isJsonWs with
         | '\x7d' :: r => some (J.obj [], r)
         | _ => parseM fuel (.objElems []) rest
       else none)
  | fuel + 1, .arrElems acc, s =>
    (match parseM fuel .val s with
     | none => none
     | some (v, r) =>
       match r.dropWhile isJsonWs with
       | ',' :: r₂ => parseM fuel (.arrElems (v :: acc)) r₂
       | ']' :: r₂ => some (J.arr (v :: acc).reverse, r₂)
       | _ => none)
  | fuel + 1, .objElems acc, s =>
    (match s.dropWhile isJsonWs with
     | '"' :: rest =>
       match parseStrAux rest [] with
       | none => none
       | some (k, r) =>
         match r.dropWhile isJsonWs with
         | ':' :: r₂ =>
           match parseM fuel .val r₂ with
           | none => none
           | some (v, r₃) =>
             match r₃.dropWhile isJsonWs with
             | ',' :: r₄ => parseM fuel (.objElems ((k, v) :: acc)) r₄
             | '\x7d' :: r₄ => some (J.obj ((k, v) :: acc).reverse, r₄)
             | _ => none
         | _ => none
     | _ => none)

/-- Executable JSON decoder: parse a full value, requiring only trailing
whitespace after it (as `json.loads` does). -/
def jsonDecode (s : Str) : Option J :=
  match parseM (2 * s.length + 2) .val s with
  | some (v, rest) => if (rest.dropWhile isJsonWs).isEmpty then some v else none
  | none => none

/-! ## Host-state model (live BGE state read and written by `_apply_commands`)

The interpreter runs against live engine objects. The embedding keeps the
state the interpreter itself reads or writes: scene rosters, per-object
transform slots, parents, custom properties, the process-wide ray-cast result
table and vehicle-constraint table, and an ordered log of the engine calls
whose internal effect lives outside this repository (`bge.logic.endGame`,
`bge.constraints.*`, actuator activation, `applyMovement`, `lookAt`,
`scene.addObject`, `setViewport`). Python mutates objects through references;
names are unique per scene in every state considered here, so reference
updates are modelled as update-by-name. -/

/-- Live game object as far as the interpreter touches it. Transform slots
hold the JSON-shaped values assigned by commands. -/
structure GameObject where
  name : Str
  worldPosition : J := J.null
  worldOrientation : J := J.null
  worldScale : J := J.null
  localPosition : J := J.null
  localOrientation : J := J.null
  parent : Option Str := none
  properties : List (Str × J) := []

/-- Live scene: name, object roster, active camera. -/
structure Scene where
  name : Str
  objects : List GameObject := []
  activeCamera : Option Str := none

/-- One entry of the `_raycast_results` table:
`{"object": ..., "point": ..., "normal": ...}`, all `None` on a miss. -/
structure RayHit where
  objectName : Option Str := none
  point : Option (List J) := none
  normal : Option (List J) := none

/-- Host-engine calls issued by the interpreter whose effect is internal to
the engine (not observable through the state this repository reads back). -/
inductive EngineCall where
  | endGame
  | restartGame
  | setGravity (vec : List J)
  | activate (objName ctrlName actName : Str)
  | deactivate (objName ctrlName actName : Str)
  | createVehicle (objName : Str)
  | vehicleApplyEngineForce (chassis : Str) (wheelIndex force : J)
  | vehicleSetSteeringValue (chassis : Str) (wheelIndex value : J)
  | vehicleAddWheel (chassis wheelName : Str)
  | vehicleApplyBraking (chassis : Str) (wheelIndex force : J)
  | characterJump (objName : Str)
  | characterWalkDirection (objName : Str) (vec : List J)
  | characterSetVelocity (objName : Str) (vec : List J) (time : J) (isLocal : Bool)
  | applyMovement (objName : Str) (vec : List J)
  | lookAt (objName targetName : Str)
  | sceneAddObject (sceneName addName ownerName : Str)
  | setViewport (objName : Str) (left bottom right top : J)

/-- Host state: the scene graph plus the two process-wide side tables owned by
`script_handler.py` (`_raycast_results`, `_vehicle_constraints`; the latter
modelled by the set of chassis names holding a constraint handle) and the
engine-call log. -/
structure Host where
  scenes : List Scene
  currentSceneName : Str
  raycastResults : List (Str × RayHit) := []
  vehicleConstraints : List Str := []
  engineCalls : List EngineCall := []

/-- Fields of a `rayCast` command consumed inside its handler's `try` block. -/
structure RayCastArgs where
  toV : J
  fromV : J
  dist : J
  prop : J
  face : J
  xray : J
  mask : J

/-- Fields of a `rayCastTo` command consumed inside its handler. -/
structure RayToArgs where
  target : J
  dist : J
  prop : J

/-- Projection of a `rayCast` command onto the fields its handler reads. -/
def rayCastArgsOf (cmd : J) : RayCastArgs :=
  { toV := pyGetJ cmd "to".data, fromV := pyGetJ cmd "from".data,
    dist := pyGetJ cmd "dist".data, prop := pyGetJ cmd "prop".data,
    face := pyGetJ cmd "face".data, xray := pyGetJ cmd "xray".data,
    mask := pyGetJ cmd "mask".data }

/-- Projection of a `rayCastTo` command onto the fields its handler reads. -/
def rayToArgsOf (cmd : J) : RayToArgs :=
  { target := pyGetJ cmd "target".data, dist := pyGetJ cmd "dist".data,
    prop := pyGetJ cmd "prop".data }

/-- Engine physics primitives called by the interpreter (`obj.rayCast`,
`obj.rayCastTo`, `obj.getPhysicsId`). A `none` ray result covers both a miss
and any exception raised inside the handler's `try` block, which the source
converts to the same stored null record. -/
structure PhysicsOracle where
  rayCast : Str → RayCastArgs → Option RayHit
  rayCastTo : Str → RayToArgs → Option Str
  physicsId : Str → Rat

/-- Interpreter view of the invocation context dict: the keys `_apply_commands`
reads (`scene_name`, `object_name`, `controller_name`), already normalised to
strings as `_build_context` guarantees. -/
structure CtxInfo where
  sceneName : Str := []
  objectName : Str := []
  controllerName : Str := []

/-- Scene-list lookup by name (`logic.getSceneList().get(name)`). -/
def findScene (h : Host) (name : Str) : Option Scene :=
  h.scenes.find? (fun sc => sc.name == name)

/-- Scene resolution of `_apply_commands` (lines 113-138): a nonempty context
scene name is looked up in the scene list — with no fallback when absent —
otherwise the current scene is used. -/
def resolveScene (h : Host) (ctxSceneName : Str) : Option Scene :=
  if ctxSceneName.isEmpty then findScene h h.currentSceneName
  else findScene h ctxSceneName

/-- Embedding of `_scene_get_object` on a resolved scene. -/
def sceneGetObject (sc : Scene) (objName : Str) : Option GameObject :=
  if objName.isEmpty then none
  else sc.objects.find? (fun o => o.name == objName)

/-- Object lookup through a scene name. -/
def getObject (h : Host) (scName objName : Str) : Option GameObject :=
  match findScene h scName with
  | none => none
  | some sc => sceneGetObject sc objName

/-- Update one object (by scene and object name) in place. -/
def updateObject (h : Host) (scName objName : Str) (f : GameObject → GameObject) : Host :=
  { h with
    scenes := h.scenes.map fun sc =>
      if sc.name == scName then
        { sc with objects := sc.objects.map fun o => if o.name == objName then f o else o }
      else sc }

/-- Append one abstracted engine call to the log. -/
def logCall (h : Host) (c : EngineCall) : Host :=
  { h with engineCalls := h.engineCalls ++ [c] }

/-- Store one entry of the ray-cast result table (`_raycast_results[key] = r`). -/
def writeRayResult (h : Host) (k : Str) (r : RayHit) : Host :=
  { h with raycastResults := assocSet h.raycastResults k r }

/-- Owner-object fallback: `context.get("object_name")`, with the subsequent
`if not obj_name: continue` check. -/
def ctxObjFallback (ctx : CtxInfo) : Option Str :=
  if ctx.objectName.isEmpty then none else some ctx.objectName

/-- `obj_name = cmd.get("object") or context.get("object_name")`. `none`
covers both the all-falsy case (`continue`) and a truthy non-string value,
whose lookup in the scene can match no object name, so the command is skipped
either way. -/
def resolveObjName (ctx : CtxInfo) (cmd : J) : Option Str :=
  match pyGet cmd "object".data with
  | some (.str s) => if s.isEmpty then ctxObjFallback ctx else some s
  | some v => if pyTruthy v then none else ctxObjFallback ctx
  | none => ctxObjFallback ctx

/-- Whether `int(cmd.get(k, d))` / `float(cmd.get(k, d))` succeeds: the field
is absent (numeric default) or numeric. Numeric strings, which CPython would
also convert, are outside the fragment this development evaluates. -/
def numOrMissing (cmd : J) (k : Str) : Bool :=
  match pyGet cmd k with
  | none => true
  | some v => jIsNum v

/-- `[0, 0, 0]` default vector. -/
def zero3 : J := J.arr [J.num 0, J.num 0, J.num 0]

/-- Host acceptance of a vector assignment (`obj.worldPosition = value` and
friends): exactly three numeric components; every other assignment raises in
the engine and is swallowed by the handler. -/
def hostVec3 : J → Option J
  | .arr [a, b, c] =>
    if jIsNum a && jIsNum b && jIsNum c then some (J.arr [a, b, c]) else none
  | _ => none

/-- Host acceptance of a 3x3 matrix assignment (orientation fallback path). -/
def jMat3 : J → Option J
  | .arr [a, b, c] =>
    if (hostVec3 a).isSome && (hostVec3 b).isSome && (hostVec3 c).isSome then
      some (J.arr [a, b, c])
    else none
  | _ => none

/-! Per-op handlers of `_apply_commands`, in source order. Handlers reach
these only with the target object already resolved and present. Each models
the body of one branch; exceptions swallowed by the source's `try/except`
blocks appear as identity results. -/

/-- `setGravity` (lines 163-172): `bge.constraints.setGravity` logged when the
vector has at least three convertible components. -/
def applySetGravity (cmd : J) (h : Host) : Host :=
  let vec := pyOrJ (pyGetJ cmd "vec".data)
    (pyOrJ (pyGetJ cmd "value".data)
      (J.arr [J.num 0, J.num 0, J.num (-(981 / 100 : Rat))]))
  match pyLen vec with
  | some l =>
    if l ≥ 3 then
      match jVec3 vec with
      | some v3 => logCall h (.setGravity v3)
      | none => h
    else h
  | none => h

/-- `activate` / `deactivate` (lines 183-240): the controller and actuator
lookup plus `ctrl.activate`/`deactivate` is engine-internal and logged; the
source requires a truthy string actuator name and a truthy controller name. -/
def applyActivate (isAct : Bool) (ctx : CtxInfo) (objName : Str) (cmd : J) (h : Host) : Host :=
  match pyGet cmd "actuator".data with
  | some (.str a) =>
    if !a.isEmpty && !ctx.controllerName.isEmpty then
      logCall h (if isAct then .activate objName ctx.controllerName a
                 else .deactivate objName ctx.controllerName a)
    else h
  | _ => h

/-- `rayCast` (lines 241-266): when `to` is truthy with `len >= 3`, the result
table entry for the caster is written on every path — hit components on a hit,
nulls on a miss or any exception inside the `try`. -/
def applyRayCast (phys : PhysicsOracle) (objName : Str) (cmd : J) (h : Host) : Host :=
  let toV := pyGetJ cmd "to".data
  if pyTruthy toV then
    match pyLen toV with
    | some l =>
      if l ≥ 3 then
        writeRayResult h objName ((phys.rayCast objName (rayCastArgsOf cmd)).getD {})
      else h
    | none => h
  else h

/-- `rayCastTo` (lines 267-288): the result entry for the caster is always
written; the hit name is consulted only for a length-3 list target or a string
target that resolves in the batch scene. -/
def applyRayCastTo (phys : PhysicsOracle) (scName objName : Str) (cmd : J) (h : Host) : Host :=
  let hit : Option Str :=
    match pyGet cmd "target".data with
    | some (.arr ts) =>
      if ts.length ≥ 3 then phys.rayCastTo objName (rayToArgsOf cmd) else none
    | some (.str t) =>
      match getObject h scName t with
      | some _ => phys.rayCastTo objName (rayToArgsOf cmd)
      | none => none
    | _ => none
  writeRayResult h objName { objectName := hit }

/-- `createVehicle` (lines 290-301): create-once per chassis name, guarded by
a truthy physics id. -/
def applyCreateVehicle (phys : PhysicsOracle) (objName : Str) (h : Host) : Host :=
  if h.vehicleConstraints.contains objName then h
  else if phys.physicsId objName = 0 then h
  else
    let h₁ := logCall h (.createVehicle objName)
    { h₁ with vehicleConstraints := h₁.vehicleConstraints ++ [objName] }

/-- `vehicleApplyEngineForce` (lines 302-312). -/
def applyVehicleForce (objName : Str) (cmd : J) (h : Host) : Host :=
  if numOrMissing cmd "wheelIndex".data && numOrMissing cmd "force".data then
    if h.vehicleConstraints.contains objName then
      logCall h (.vehicleApplyEngineForce objName
        (pyGetJ cmd "wheelIndex".data) (pyGetJ cmd "force".data))
    else h
  else h

/-- `vehicleSetSteeringValue` (lines 313-323). -/
def applyVehicleSteer (objName : Str) (cmd : J) (h : Host) : Host :=
  if numOrMissing cmd "wheelIndex".data && numOrMissing cmd "value".data then
    if h.vehicleConstraints.contains objName then
      logCall h (.vehicleSetSteeringValue objName
        (pyGetJ cmd "wheelIndex".data) (pyGetJ cmd "value".data))
    else h
  else h

/-- Convertibility of the `vehicleAddWheel` geometry arguments. -/
def vehicleWheelArgsOk (cmd : J) : Bool :=
  let ap := pyOrJ (pyGetJ cmd "attachPos".data)
    (pyOrJ (pyGetJ cmd "connectionPoint".data) zero3)
  let dd := pyOrJ (pyGetJ cmd "downDir".data) (J.arr [J.num 0, J.num 0, J.num (-1)])
  let ad := pyOrJ (pyGetJ cmd "axleDir".data) (J.arr [J.num 0, J.num 1, J.num 0])
  (jVec3 ap).isSome && (jVec3 dd).isSome && (jVec3 ad).isSome &&
    numOrMissing cmd "suspensionRestLength".data && numOrMissing cmd "wheelRadius".data

/-- `vehicleAddWheel` (lines 324-349): `vehicle.addWheel` is engine-internal
and logged, guarded by a truthy wheel name that resolves in the batch scene, a
constraint handle for the chassis, and convertible geometry arguments. -/
def applyVehicleAddWheel (scName objName : Str) (cmd : J) (h : Host) : Host :=
  match pyGet cmd "wheel".data with
  | some (.str w) =>
    if w.isEmpty then h
    else
      match getObject h scName w with
      | some _ =>
        if h.vehicleConstraints.contains objName && vehicleWheelArgsOk cmd then
          logCall h (.vehicleAddWheel objName w)
        else h
      | none => h
  | _ => h

/-- `vehicleApplyBraking` (lines 350-360). -/
def applyVehicleBrake (objName : Str) (cmd : J) (h : Host) : Host :=
  if numOrMissing cmd "wheelIndex".data && numOrMissing cmd "force".data then
    if h.vehicleConstraints.contains objName then
      logCall h (.vehicleApplyBraking objName
        (pyGetJ cmd "wheelIndex".data) (pyGetJ cmd "force".data))
    else h
  else h

/-- `characterWalkDirection` (lines 372-383). -/
def applyCharacterWalk (objName : Str) (cmd : J) (h : Host) : Host :=
  let vec := pyOrJ (pyGetJ cmd "vec".data) (pyOrJ (pyGetJ cmd "value".data) zero3)
  match pyLen vec with
  | some l =>
    if l ≥ 3 then
      match jVec3 vec with
      | some v3 => logCall h (.characterWalkDirection objName v3)
      | none => h
    else h
  | none => h

/-- `characterSetVelocity` (lines 384-397). -/
def applyCharacterVel (objName : Str) (cmd : J) (h : Host) : Host :=
  let vec := pyOrJ (pyGetJ cmd "vec".data) (pyOrJ (pyGetJ cmd "value".data) zero3)
  if numOrMissing cmd "time".data then
    match pyLen vec with
    | some l =>
      if l ≥ 3 then
        match jVec3 vec with
        | some v3 =>
          logCall h (.characterSetVelocity objName v3
            ((pyGet cmd "time".data).getD (J.num (1 / 5 : Rat)))
            (pyTruthy (pyGetJ cmd "local".data)))
        | none => h
      else h
    | none => h
  else h

/-- `applyMovement` (lines 398-411): `obj.applyMovement(vec, True)` is
engine-internal and logged when the vector converts; the manual
position-summing fallback only runs when the engine primitive raises, which
the embedding treats as absent. -/
def applyApplyMovement (objName : Str) (cmd : J) (h : Host) : Host :=
  let vec := pyOrJ (pyGetJ cmd "vec".data) (pyOrJ (pyGetJ cmd "value".data) zero3)
  match jVec3 vec with
  | some v3 => logCall h (.applyMovement objName v3)
  | none => h

/-- `setPosition` (lines 412-418). -/
def applySetPosition (scName objName : Str) (cmd : J) (h : Host) : Host :=
  match pyGet cmd "value".data with
  | some v =>
    match pyLen v with
    | some l =>
      if l ≥ 3 then
        match hostVec3 v with
        | some pv => updateObject h scName objName (fun o => { o with worldPosition := pv })
        | none => h
      else h
    | none => h
  | none => h

/-- `setRotation` (lines 419-429): a numeric triple goes through the Euler
conversion (stored here in Euler form), a 3x3 matrix through the fallback
direct assignment. -/
def applySetRotation (scName objName : Str) (cmd : J) (h : Host) : Host :=
  match pyGet cmd "value".data with
  | some v =>
    match pyLen v with
    | some l =>
      if l ≥ 3 then
        match hostVec3 v with
        | some ev => updateObject h scName objName (fun o => { o with worldOrientation := ev })
        | none =>
          match jMat3 v with
          | some mv => updateObject h scName objName (fun o => { o with worldOrientation := mv })
          | none => h
      else h
    | none => h
  | none => h

/-- `lookAt` (lines 430-456): the orientation math is engine-internal and
logged when the target is a truthy string distinct from the object that
resolves in the batch scene. -/
def applyLookAt (scName objName : Str) (cmd : J) (h : Host) : Host :=
  match pyGet cmd "target".data with
  | some (.str t) =>
    if !t.isEmpty && t ≠ objName then
      match getObject h scName t with
      | some _ => logCall h (.lookAt objName t)
      | none => h
    else h
  | _ => h

/-- `setScale` (lines 457-466). -/
def applySetScale (scName objName : Str) (cmd : J) (h : Host) : Host :=
  match pyGet cmd "value".data with
  | some v =>
    match pyLen v with
    | some l =>
      if l ≥ 3 then
        match hostVec3 v with
        | some sv => updateObject h scName objName (fun o => { o with worldScale := sv })
        | none => h
      else h
    | none => h
  | none => h

/-- `setProperty` (lines 467-473): a truthy string property name stores the
command's `value` (Python `None` when absent) in the object's property map. -/
def applySetProperty (scName objName : Str) (cmd : J) (h : Host) : Host :=
  match pyGet cmd "property".data with
  | some (.str p) =>
    if p.isEmpty then h
    else updateObject h scName objName
      (fun o => { o with properties := assocSet o.properties p (pyGetJ cmd "value".data) })
  | _ => h

/-- `setLocalPosition` (lines 474-480). -/
def applySetLocalPosition (scName objName : Str) (cmd : J) (h : Host) : Host :=
  match pyGet cmd "value".data with
  | some v =>
    match pyLen v with
    | some l =>
      if l ≥ 3 then
        match hostVec3 v with
        | some pv => updateObject h scName objName (fun o => { o with localPosition := pv })
        | none => h
      else h
    | none => h
  | none => h

/-- `setLocalRotation` (lines 481-491). -/
def applySetLocalRotation (scName objName : Str) (cmd : J) (h : Host) : Host :=
  match pyGet cmd "value".data with
  | some v =>
    match pyLen v with
    | some l =>
      if l ≥ 3 then
        match hostVec3 v with
        | some ev => updateObject h scName objName (fun o => { o with localOrientation := ev })
        | none =>
          match jMat3 v with
          | some mv => updateObject h scName objName (fun o => { o with localOrientation := mv })
          | none => h
      else h
    | none => h
  | none => h

/-- `setParent` (lines 492-502): truthy string parent that resolves sets the
parent; a falsy field clears it; a truthy non-string or unresolved parent does
nothing. -/
def applySetParent (scName objName : Str) (cmd : J) (h : Host) : Host :=
  match pyGet cmd "parent".data with
  | some (.str p) =>
    if p.isEmpty then updateObject h scName objName (fun o => { o with parent := none })
    else
      match getObject h scName p with
      | some _ => updateObject h scName objName (fun o => { o with parent := some p })
      | none => h
  | some v =>
    if pyTruthy v then h
    else updateObject h scName objName (fun o => { o with parent := none })
  | none => updateObject h scName objName (fun o => { o with parent := none })

/-- `sceneAddObject` (lines 503-521): reached only with the command's object
already resolved in the batch scene (so the cross-scene search is dead code);
the engine instance creation is logged, guarded by a resolvable owner. -/
def applySceneAddObject (ctx : CtxInfo) (scName : Str) (cmd : J) (h : Host) : Host :=
  match pyGet cmd "object".data with
  | some (.str a) =>
    if a.isEmpty then h
    else if ctx.objectName.isEmpty then h
    else
      match getObject h scName ctx.objectName with
      | some _ => logCall h (.sceneAddObject scName a ctx.objectName)
      | none => h
  | _ => h

/-- `sceneRemoveObject` (lines 522-534): unlink the named object from the
batch scene. -/
def applySceneRemoveObject (scName : Str) (cmd : J) (h : Host) : Host :=
  match pyGet cmd "object".data with
  | some (.str r) =>
    if r.isEmpty then h
    else
      match getObject h scName r with
      | some _ =>
        { h with
          scenes := h.scenes.map fun sc =>
            if sc.name == scName then
              { sc with objects := sc.objects.filter (fun o => o.name != r) }
            else sc }
      | none => h
  | _ => h

/-- `setViewport` (lines 536-547): logged when all four bounds are present and
convertible. -/
def applySetViewport (objName : Str) (cmd : J) (h : Host) : Host :=
  match pyGet cmd "left".data, pyGet cmd "bottom".data,
        pyGet cmd "right".data, pyGet cmd "top".data with
  | some l, some b, some r, some t =>
    if jIsNum l && jIsNum b && jIsNum r && jIsNum t then
      logCall h (.setViewport objName l b r t)
    else h
  | _, _, _, _ => h

/-- `setActiveCamera` (lines 549-568): the only handler that consults the
command's own `scene` field — a truthy string is looked up in the scene list
(`scene_list.get`, no fallback on a miss), anything else keeps the batch
scene. -/
def applySetActiveCamera (scName objName : Str) (cmd : J) (h : Host) : Host :=
  let tgt : Option Str :=
    match pyGet cmd "scene".data with
    | some (.str s) =>
      if s.isEmpty then some scName
      else
        match findScene h s with
        | some _ => some s
        | none => none
    | _ => some scName
  match tgt with
  | some t =>
    { h with
      scenes := h.scenes.map fun sc =>
        if sc.name == t then { sc with activeCamera := some objName } else sc }
  | none => h

/-- One iteration of the `_apply_commands` loop (lines 147-571). The whole
body runs under `try/except Exception: continue`, and every raising path
inside a handler is wrapped in a further `try/except`, so each iteration is a
total state transformer; branch order follows the source. -/
def applyCmd (phys : PhysicsOracle) (ctx : CtxInfo) (scName : Str) (h : Host) (cmd : J) : Host :=
  match pyGetStr cmd "op".data with
  | none => h
  | some op =>
    if op = "endGame".data then logCall h .endGame
    else if op = "restartGame".data then logCall h .restartGame
    else if op = "setGravity".data then applySetGravity cmd h
    else
      match resolveObjName ctx cmd with
      | none => h
      | some objName =>
        match getObject h scName objName with
        | none => h
        | some _ =>
          if op = "activate".data then applyActivate true ctx objName cmd h
          else if op = "deactivate".data then applyActivate false ctx objName cmd h
          else if op = "rayCast".data then applyRayCast phys objName cmd h
          else if op = "rayCastTo".data then applyRayCastTo phys scName objName cmd h
          else if op = "createVehicle".data then applyCreateVehicle phys objName h
          else if op = "vehicleApplyEngineForce".data then applyVehicleForce objName cmd h
          else if op = "vehicleSetSteeringValue".data then applyVehicleSteer objName cmd h
          else if op = "vehicleAddWheel".data then applyVehicleAddWheel scName objName cmd h
          else if op = "vehicleApplyBraking".data then applyVehicleBrake objName cmd h
          else if op = "characterJump".data then logCall h (.characterJump objName)
          else if op = "characterWalkDirection".data then applyCharacterWalk objName cmd h
          else if op = "characterSetVelocity".data then applyCharacterVel objName cmd h
          else if op = "applyMovement".data then applyApplyMovement objName cmd h
          else if op = "setPosition".data then applySetPosition scName objName cmd h
          else if op = "setRotation".data then applySetRotation scName objName cmd h
          else if op = "lookAt".data then applyLookAt scName objName cmd h
          else if op = "setScale".data then applySetScale scName objName cmd h
          else if op = "setProperty".data then applySetProperty scName objName cmd h
          else if op = "setLocalPosition".data then applySetLocalPosition scName objName cmd h
          else if op = "setLocalRotation".data then applySetLocalRotation scName objName cmd h
          else if op = "setParent".data then applySetParent scName objName cmd h
          else if op = "sceneAddObject".data then applySceneAddObject ctx scName cmd h
          else if op = "sceneRemoveObject".data then applySceneRemoveObject scName cmd h
          else if op = "setViewport".data then applySetViewport objName cmd h
          else if op = "setActiveCamera".data then applySetActiveCamera scName objName cmd h
          else h

/-- The command loop of `_apply_commands`, after scene resolution. -/
def applyLoop (phys : PhysicsOracle) (ctx : CtxInfo) (scName : Str) :
    List J → Host → Host
  | [], h => h
  | c :: rest, h => applyLoop phys ctx scName rest (applyCmd phys ctx scName h c)

/-- Embedding of `_apply_commands`: resolve the batch scene once from the
context — the Python code holds the scene object by reference; the embedding
holds its name, equivalent because no command renames or removes a scene —
then fold the per-command step over the batch. A `none` scene skips the whole
batch. -/
def applyCommands (phys : PhysicsOracle) (ctx : CtxInfo) (cmds : List J) (h : Host) : Host :=
  match resolveScene h ctx.sceneName with
  | none => h
  | some sc => applyLoop phys ctx sc.name cmds h

/-- Replace (or add) one field of a JSON object; any other value is returned
unchanged. Used to state which command fields an interpreter branch reads. -/
def jSetKey (cmd : J) (k : Str) (v : J) : J :=
  match cmd with
  | .obj kvs => .obj (assocSet kvs k v)
  | other => other

/-! ## JSON serialisation (`JSON.stringify` as used by the wrapped program)

The strings serialised in this development contain no control characters
needing `\\u` escapes, and every number is an integer, where `Rat`'s rendering
agrees with JavaScript's. -/

/-- Escape one character of a JSON string literal. -/
def escChar (c : Char) : Str :=
  if c = '"' then ['\\', '"']
  else if c = '\\' then ['\\', '\\']
  else if c = '\n' then ['\\', 'n']
  else if c = '\t' then ['\\', 't']
  else if c = '\r' then ['\\', 'r']
  else [c]

/-- Escape a JSON string body. -/
def escStr : Str → Str
  | [] => []
  | c :: rest => escChar c ++ escStr rest

mutual

/-- Serialise a JSON value. -/
def serJ : J → Str
  | .null => "null".data
  | .bool true => "true".data
  | .bool false => "false".data
  | .num q => (toString q).data
  | .str s => '"' :: (escStr s ++ ['"'])
  | .arr xs => '[' :: (serList xs ++ [']'])
  | .obj kvs => '\x7b' :: (serPairs kvs ++ ['\x7d'])

/-- Serialise array elements, comma-separated. -/
def serList : List J → Str
  | [] => []
  | [x] => serJ x
  | x :: y :: rest => serJ x ++ ',' :: serList (y :: rest)

/-- Serialise object members, comma-separated. -/
def serPairs : List (Str × J) → Str
  | [] => []
  | [(k, v)] => '"' :: (escStr k ++ '"' :: ':' :: serJ v)
  | (k, v) :: p :: rest =>
    '"' :: (escStr k ++ '"' :: ':' :: serJ v) ++ ',' :: serPairs (p :: rest)

end

/-! ## Script-side stand-in API (wrapped code in `execute_with_context`,
nodejs.py lines 361-703)

The `__BGE_CONTEXT__` value is the JSON-decoded context dict, kept as a `J`
value; JavaScript `undefined` on a missing field and JSON `null` are both
falsy and collapse to `J.null` here. -/

/-- JavaScript truthiness. -/
def jsTruthy : J → Bool
  | .null => false
  | .bool b => b
  | .num n => decide (n ≠ 0)
  | .str s => !s.isEmpty
  | .arr _ => true
  | .obj _ => true

/-- JavaScript member access `o[k]`, with missing members as `J.null`
(standing for `undefined`). -/
def jsField (o : J) (k : Str) : J :=
  match o with
  | .obj kvs => (jLookup kvs k).getD J.null
  | _ => J.null

/-- JavaScript `a || b`. -/
def jsOr (a b : J) : J := if jsTruthy a then a else b

/-- JavaScript strict equality `v === s` against a string value. -/
def jsStrictEqStr (v : J) (s : Str) : Bool :=
  match v with
  | .str t => t == s
  | _ => false

/-- JavaScript index access `v[i]`. -/
def jsIndex (v : J) (i : Nat) : J :=
  match v with
  | .arr xs => (xs.get? i).getD J.null
  | _ => J.null

/-- `Array.from(v || [0,0,0])` as used by the stand-in setters: a falsy value
becomes the default triple, an array is copied, a string becomes its
characters, any other truthy value has no iterable entries. -/
def jsArrayFrom3 (v : J) : J :=
  if !jsTruthy v then J.arr [J.num 0, J.num 0, J.num 0]
  else
    match v with
    | .arr xs => .arr xs
    | .str s => .arr (s.map fun c => J.str [c])
    | _ => .arr []

/-- `__bgeQueueForObject(op, objName, extra)` (lines 368-376): append one
command payload built from the op, the context scene name, the object name
(with owner fallback) and the extra fields. -/
def bgeQueueForObject (ctx : J) (op : Str) (objName : Str) (extra : List (Str × J))
    (q : List J) : List J :=
  q ++ [J.obj ([("op".data, J.str op),
                ("scene".data, jsOr (jsField ctx "scene_name".data) (J.str [])),
                ("object".data,
                  if objName.isEmpty then jsOr (jsField ctx "object_name".data) (J.str [])
                  else J.str objName)] ++ extra)]

/-- `const objName = name || ctx.object_name || ""` at stand-in construction
(`__bgeMakeGameObject`, line 380); a non-string truthy `object_name` does not
occur in contexts built by `_build_context`. -/
def bgeObjName (ctx : J) (name : Str) : Str :=
  if !name.isEmpty then name
  else
    match jsField ctx "object_name".data with
    | .str s => s
    | _ => []

/-- The `position` getter of a stand-in game object (lines 383-392): read
`ctx.object_positions[objName]` when it is an array, else the owner's
snapshot `ctx.position`, else `[0, 0, 0]`. Reads only the snapshot. -/
def gameObjGetPosition (ctx : J) (objName : Str) : List J :=
  match jsField (jsOr (jsField ctx "object_positions".data) (J.obj [])) objName with
  | .arr xs => xs
  | _ =>
    if jsStrictEqStr (jsField ctx "object_name".data) objName then
      match jsField ctx "position".data with
      | .arr ps => ps
      | _ => [J.num 0, J.num 0, J.num 0]
    else [J.num 0, J.num 0, J.num 0]

/-- The `position` setter (lines 393-397): enqueue one `setPosition` command;
no other effect. -/
def gameObjSetPosition (ctx : J) (objName : Str) (v : J) (q : List J) : List J :=
  bgeQueueForObject ctx "setPosition".data objName
    [("value".data, jsArrayFrom3 v)] q

/-- Script-interpreter state during one invocation: the immutable decoded
context and the `__bgeCommands` queue. -/
structure ScriptState where
  ctx : J
  queue : List J := []

/-- Read `someObject.position` in the current invocation. -/
def objGetPosition (st : ScriptState) (objName : Str) : List J :=
  gameObjGetPosition st.ctx objName

/-- Assign `someObject.position = v` in the current invocation. -/
def objSetPosition (st : ScriptState) (objName : Str) (v : J) : ScriptState :=
  { st with queue := gameObjSetPosition st.ctx objName v st.queue }

/-! ## The wrapped program's observable behaviour (nodejs.py lines 361-704)

A user-script run is summarised by what the embedded interpreter can observe
of it: the stdout lines it printed, the commands it queued (in order, up to
the failure point if it threw), and the rendering of an uncaught exception,
if any. The wrapped program's control flow around it is fixed by the source:
the context debug block runs first, then the user IIFE under `try/catch`
whose handler writes the error and stack to stderr and calls
`process.exit(1)` — so the commands-length debug line and the marker line
after the IIFE are only reached when the user code did not throw. -/

structure UserRun where
  printed : List Str := []
  queued : List J := []
  thrown : Option Str := none
  stack : Option Str := none

/-- Decimal rendering of a natural number. -/
def natToStr (n : Nat) : Str := (toString n).data

/-- JavaScript string coercion of the values interpolated into debug lines. -/
def jsRender (v : J) : Str :=
  match v with
  | .num q => (toString q).data
  | .str s => s
  | .null => "undefined".data
  | .bool true => "true".data
  | .bool false => "false".data
  | _ => "[object]".data

/-- The context debug block (lines 668-677): one line always, a second one
when `ctx.sensors.Keyboard.events` is a nonempty array. -/
def debugCtxLines (ctx : J) : List Str :=
  let kb := jsField (jsOr (jsField ctx "sensors".data) (J.obj [])) "Keyboard".data
  let evs := jsField kb "events".data
  let evLen : Str :=
    if jsTruthy kb then
      match evs with
      | .arr xs => natToStr xs.length
      | _ => "n/a".data
    else "n/a".data
  let line₁ := "[UPBGE-JS] DEBUG ctx.Keyboard.events.length=".data ++ evLen
  match evs with
  | .arr (e :: _) =>
    if jsTruthy kb then
      [line₁,
       "[UPBGE-JS] DEBUG first event key=".data ++ jsRender (jsIndex e 0) ++
         " status=".data ++ jsRender (jsIndex e 1)]
    else [line₁]
  | _ => [line₁]

/-- The commands-length debug line (line 695). -/
def cmdsLenLine (q : List J) : Str :=
  "[UPBGE-JS] DEBUG __bgeCommands.length=".data ++ natToStr q.length

/-- The queue emission line (line 700): marker plus serialised array, no id. -/
def markerLine (q : List J) : Str := cmdMarker ++ serJ (J.arr q)

/-- Raw process output of one run: stdout lines, stderr lines, exit status. -/
structure ProcOutput where
  stdoutLines : List Str
  stderrLines : List Str
  exitZero : Bool

/-- Join output lines into the captured text (each written with a trailing
newline). -/
def joinLines : List Str → Str
  | [] => []
  | l :: rest => l ++ '\n' :: joinLines rest

/-- One ephemeral run of the wrapped program: on an uncaught user throw the
catch block writes the rendering and optional stack to stderr and exits
non-zero before the marker emission is reached; otherwise the queue is
emitted after the debug line and the process exits zero. -/
def runWrappedEphemeral (ctx : J) (user : UserRun) : ProcOutput :=
  match user.thrown with
  | some m =>
    { stdoutLines := debugCtxLines ctx ++ user.printed,
      stderrLines := m :: (match user.stack with | some s => [s] | none => []),
      exitZero := false }
  | none =>
    { stdoutLines := debugCtxLines ctx ++ user.printed ++
        [cmdsLenLine user.queued, markerLine user.queued],
      stderrLines := [],
      exitZero := true }

/-- Result assembly of `execute_with_context`'s ephemeral branch (lines
712-729): nonzero exit gives `success=False` with stderr as the error text,
falling back to stdout when stderr is empty. -/
def executeWithContextEphemeral (ctx : J) (user : UserRun) : ExecResult :=
  let p := runWrappedEphemeral ctx user
  let out := joinLines p.stdoutLines
  let err := joinLines p.stderrLines
  if p.exitZero then { stdout := out, stderr := err, success := true }
  else { stdout := out, stderr := if err.isEmpty then out else err, success := false }

/-! ## Persistent-worker transport (nodejs.py lines 108-124, 271-325)

The worker bootstrap reads `{id, code}` requests and, per request, evaluates
the same wrapped program. Because the wrapped program's catch handler calls
`process.exit(1)`, an uncaught user throw kills the whole worker before any
marker line (the bootstrap's own catch included) can be written; on a normal
run the wrapped code first prints its id-less marker line and the bootstrap
then prints the id-tagged one. -/

/-- Stdout lines the worker produces for one request with the given id. -/
def workerStdoutLines (ctx : J) (user : UserRun) (reqId : Str) : List Str :=
  match user.thrown with
  | some _ => debugCtxLines ctx ++ user.printed
  | none => debugCtxLines ctx ++ user.printed ++
      [cmdsLenLine user.queued, markerLine user.queued,
       cmdMarker ++ reqId ++ '\t' :: serJ (J.arr user.queued)]

/-- Host-side handle state of the worker session: whether a process handle is
held, whether that OS process is still alive (`poll() is None`), and the
request-id counter. -/
structure WorkerState where
  hasProcess : Bool := false
  alive : Bool := false
  execId : Nat := 0

/-- Embedding of `_ensure_worker`: reuse a live process, otherwise spawn
(`spawnOk` models whether `Popen` succeeds); the id counter is never reset. -/
def ensureWorker (spawnOk : Bool) (w : WorkerState) : Bool × WorkerState :=
  if w.hasProcess && w.alive then (true, w)
  else if spawnOk then (true, { w with hasProcess := true, alive := true })
  else (false, { w with hasProcess := false, alive := false })

/-- The response read loop of `_worker_execute` (lines 312-323): collect lines
until one contains both the marker and the marker followed by the request id;
an exhausted line supply models the deadline passing or EOF after worker
death, both of which just end the loop. -/
def readLoop (reqId : Str) : List Str → List Str
  | [] => []
  | l :: rest =>
    if pyIn cmdMarker l && pyIn (cmdMarker ++ reqId) l then [l]
    else l :: readLoop reqId rest

/-- Embedding of `_worker_execute`: ensure the worker, bump the id, write the
request (`writeOk` models the write succeeding; a failed write drops the
process handle and fails the call), then run the read loop over the lines
readable before the deadline (`avail`) and return their concatenation with
`success=True` unconditionally. -/
def workerExecute (spawnOk writeOk : Bool) (avail : List Str) (w : WorkerState) :
    ExecResult × WorkerState :=
  match ensureWorker spawnOk w with
  | (false, w₁) =>
    ({ stdout := [], stderr := "Worker failed to start".data, success := false }, w₁)
  | (true, w₁) =>
    let w₂ := { w₁ with execId := w₁.execId + 1 }
    let reqId := natToStr w₂.execId
    if !writeOk then
      ({ stdout := [], stderr := "Broken pipe".data, success := false },
       { w₂ with hasProcess := false })
    else
      ({ stdout := joinLines (readLoop reqId avail), stderr := [], success := true }, w₂)

/-- Commands a request with the given id ends up receiving: the read loop's
collected output fed to `_extract_commands` (as `execute_controller_script`
does with the returned output). -/
def workerDelivered (reqId : Str) (avail : List Str) : List J :=
  extractCommands jsonDecode (joinLines (readLoop reqId avail))

/-! ## Controller entry point (`execute_controller_script`,
script_handler.py lines 622-674) -/

/-- Embedding of `execute_controller_script`, parameterised by the execution
result the runtime returned: commands are extracted and applied only when the
process succeeded; a failed run reports the error text (or the fixed fallback
message) and leaves the host untouched. -/
def executeControllerScript (decode : Str → Option J) (runRes : ExecResult)
    (phys : PhysicsOracle) (ctx : CtxInfo) (h : Host) : (Bool × Option Str) × Host :=
  if runRes.success then
    ((true, none), applyCommands phys ctx (extractCommands decode runRes.stdout) h)
  else
    ((false, some (if runRes.stderr.isEmpty
                   then "Unknown JavaScript execution error".data
                   else runRes.stderr)), h)

/-! ## Context-snapshot builder (`_build_context`,
python_wrapper.py lines 31-360)

Every extraction step in the source is individually guarded; a failing read
leaves the field at its default. The ambient engine state the builder reads —
controller, owner, sensors, counters — is collected in `Ambient` below;
crucially it also carries the full `Host`, including the ray-cast result
table, so that what the builder does and does not read is a statement about
the same state the interpreter writes. Object transform slots hold the JSON
image of their value where known; an unknown slot (`J.null`) degrades to the
field default exactly as the guarded extraction does when a conversion
fails. -/

/-- One entry of `sensor.inputs`: key code plus its active/activated/released
flags (`SCA_InputEvent`). -/
structure KeyEvt where
  keycode : Int
  active : Bool := false
  activated : Bool := false
  released : Bool := false

/-- Raw view of one sensor as the builder reads it. -/
structure SensorView where
  name : Str := []
  typeName : Str := []
  positive : Bool := false
  stype : Int := 0
  inputs : Option (List KeyEvt) := none
  keyStatus : Option (Int → Int) := none
  mousePos : Option (Int × Int) := none
  buttonStatus : Option (Int → Bool) := none
  wheel : Option Int := none
  joyIndex : Int := 0
  axisValues : Option (List Rat) := none

/-- Engine counters (each falling back to its default when unavailable). -/
structure EngineView where
  frameRate : Rat := 0
  currentFrame : Int := 0
  timeSinceStart : Rat := 0

/-- Ambient host state read by one snapshot build. -/
structure Ambient where
  host : Host
  ownerSceneName : Str := []
  ownerName : Str := []
  controllerName : Str := []
  sensors : List SensorView := []
  engine : EngineView := {}

/-- Decimal rendering of an integer (`str(i)`). -/
def intToStr (i : Int) : Str := (toString i).data

/-- Key codes polled by the keyboard `getKeyStatus` fallback (line 256). -/
def keyboardPollKeys : List Int := [87, 83, 65, 68, 119, 115, 97, 100]

/-- `[keycode, status]` pairs derived from `sensor.inputs` (lines 236-248):
active, just-activated and released flags map to statuses 1, 2, 3. -/
def evtPairs (evts : List KeyEvt) : List J :=
  evts.flatMap fun e =>
    (if e.active then [J.arr [J.num (e.keycode : Rat), J.num 1]] else []) ++
    (if e.activated then [J.arr [J.num (e.keycode : Rat), J.num 2]] else []) ++
    (if e.released then [J.arr [J.num (e.keycode : Rat), J.num 3]] else [])

/-- The per-sensor entry of the raw sensor dump (lines 226-296). -/
def sensorEntry (s : SensorView) : J :=
  let base : List (Str × J) :=
    [("positive".data, J.bool s.positive), ("type".data, J.num (s.stype : Rat))]
  let evts := match s.inputs with
    | some evts => evtPairs evts
    | none => []
  let evts :=
    if evts.isEmpty then
      if pyIn "Keyboard".data s.typeName || s.stype = 1 then
        match s.keyStatus with
        | some ks =>
          keyboardPollKeys.filterMap fun kc =>
            if ks kc ≠ 0 then some (J.arr [J.num (kc : Rat), J.num 1]) else none
        | none => []
      else []
    else evts
  let kbFields := if evts.isEmpty then [] else [("events".data, J.arr evts)]
  let mouseFields :=
    if pyIn "Mouse".data s.typeName || s.stype = 12 then
      (match s.mousePos with
       | some (x, y) => [("position".data, J.arr [J.num (x : Rat), J.num (y : Rat)])]
       | none => []) ++
      (match s.buttonStatus with
       | some bs =>
         [("pressed".data,
           J.arr (([1, 2, 4] : List Int).filterMap fun b =>
             if bs b then some (J.num (b : Rat)) else none))]
       | none => []) ++
      (match s.wheel with
       | some w => [("wheelDelta".data, J.num (w : Rat))]
       | none => [])
    else []
  let joyFields :=
    if pyIn "Joystick".data s.typeName || s.stype = 13 then
      [("index".data, J.num (s.joyIndex : Rat))] ++
      (match s.buttonStatus with
       | some bs =>
         [("buttonsPressed".data,
           J.arr ((List.range 32).filterMap fun i =>
             if bs (i : Int) then some (J.num (i : Rat)) else none))]
       | none => []) ++
      (match s.axisValues with
       | some ax =>
         [("axisValues".data,
           J.arr ((List.range 4).map fun i => J.num ((ax.get? i).getD 0)))]
       | none => [])
    else []
  J.obj (base ++ kbFields ++ mouseFields ++ joyFields)

/-- Aggregated keyboard state. -/
structure KbAcc where
  pressed : List Int := []
  justPressed : List Int := []
  justReleased : List Int := []

/-- Aggregated mouse state (the source never fills `justPressed` or
`justReleased`). -/
structure MouseAcc where
  position : List Int := [0, 0]
  pressed : List Int := []
  wheelDelta : Int := 0

/-- Aggregated joystick state. -/
structure JoyAcc where
  count : Nat := 0
  buttonsPressed : List (Str × List Int) := []
  axes : List (Str × List Rat) := []

/-- Keyboard aggregation over one sensor's `inputs` (lines 298-314). -/
def kbAccumulate (kb : KbAcc) (s : SensorView) : KbAcc :=
  match s.inputs with
  | none => kb
  | some evts =>
    evts.foldl
      (fun acc e =>
        { pressed := acc.pressed ++ (if e.active then [e.keycode] else []) ++
            (if e.activated then [e.keycode] else []),
          justPressed := acc.justPressed ++ (if e.activated then [e.keycode] else []),
          justReleased := acc.justReleased ++ (if e.released then [e.keycode] else []) })
      kb

/-- Mouse aggregation (lines 316-332). -/
def mouseAccumulate (m : MouseAcc) (s : SensorView) : MouseAcc :=
  if pyIn "Mouse".data s.typeName || s.stype = 12 then
    let m₁ := match s.mousePos with
      | some (x, y) => { m with position := [x, y] }
      | none => m
    let m₂ := match s.buttonStatus with
      | some bs =>
        { m₁ with pressed := (([1, 2, 4] : List Int).foldl
            (fun acc b => if bs b && !acc.contains b then acc ++ [b] else acc)
            m₁.pressed) }
      | none => m₁
    match s.wheel with
    | some w => { m₂ with wheelDelta := w }
    | none => m₂
  else m

/-- Joystick aggregation (lines 334-348). -/
def joyAccumulate (j : JoyAcc) (s : SensorView) : JoyAcc :=
  if pyIn "Joystick".data s.typeName || s.stype = 13 then
    let j₁ := { j with count := max j.count 1 }
    let idx := intToStr s.joyIndex
    let j₂ := match s.buttonStatus with
      | some bs =>
        let lst := (List.range 32).filterMap fun i =>
          if bs (i : Int) then some (i : Int) else none
        if lst.isEmpty then j₁
        else { j₁ with buttonsPressed := assocSet j₁.buttonsPressed idx lst }
      | none => j₁
    match s.axisValues with
    | some ax =>
      { j₂ with axes := assocSet j₂.axes idx ((List.range 4).map fun i => (ax.get? i).getD 0) }
    | none => j₂
  else j

/-- Names of the owner's children: the engine-maintained inverse of the
parent links of the owner's scene. -/
def childrenNames (h : Host) (scName ownerName : Str) : List Str :=
  match findScene h scName with
  | none => []
  | some sc => (sc.objects.filter fun o => o.parent == some ownerName).map (·.name)

/-- Embedding of `_build_context`: the snapshot dict, with every key of the
skeleton (lines 37-54) in order and each value produced by its guarded
extraction. The ray-cast result table held in `a.host` has no reader here —
the `_get_raycast_results` accessor in script_handler.py is called from
nowhere. -/
def buildContext (a : Ambient) : J :=
  let owner? := getObject a.host a.ownerSceneName a.ownerName
  let sceneObjs := match findScene a.host a.ownerSceneName with
    | some sc => sc.objects
    | none => []
  let kb := a.sensors.foldl kbAccumulate {}
  let mouse := a.sensors.foldl mouseAccumulate {}
  let joy := a.sensors.foldl joyAccumulate {}
  let sensorsDict := a.sensors.foldl
    (fun acc s =>
      assocSet acc (if s.name.isEmpty then s.typeName else s.name) (sensorEntry s))
    ([] : List (Str × J))
  J.obj
    [("scene_name".data,
       match owner? with | some _ => J.str a.ownerSceneName | none => J.str []),
     ("object_name".data,
       match owner? with | some _ => J.str a.ownerName | none => J.str []),
     ("position".data,
       match owner? with
       | some o => (hostVec3 o.worldPosition).getD J.null
       | none => J.null),
     ("rotation".data,
       match owner? with
       | some o => (hostVec3 o.worldOrientation).getD J.null
       | none => J.null),
     ("scale".data,
       match owner? with
       | some o => (hostVec3 o.worldScale).getD J.null
       | none => J.null),
     ("parent_name".data,
       match owner? with
       | some o => (match o.parent with | some p => J.str p | none => J.null)
       | none => J.null),
     ("properties".data,
       match owner? with | some o => J.obj o.properties | none => J.null),
     ("children".data,
       match owner? with
       | some _ => J.arr ((childrenNames a.host a.ownerSceneName a.ownerName).map J.str)
       | none => J.null),
     ("object_positions".data,
       match owner? with
       | some _ => J.obj (sceneObjs.filterMap fun o =>
           (hostVec3 o.worldPosition).map fun v => (o.name, v))
       | none => J.null),
     ("scenes".data,
       if a.host.scenes.isEmpty then J.null
       else J.arr (a.host.scenes.map fun sc =>
         J.obj [("name".data, J.str sc.name),
                ("objects".data, J.arr (sc.objects.map fun o => J.str o.name))])),
     ("keyboard".data,
       J.obj [("pressed".data, J.arr (kb.pressed.map fun k => J.num (k : Rat))),
              ("justPressed".data, J.arr (kb.justPressed.map fun k => J.num (k : Rat))),
              ("justReleased".data, J.arr (kb.justReleased.map fun k => J.num (k : Rat)))]),
     ("mouse".data,
       J.obj [("position".data, J.arr (mouse.position.map fun x => J.num (x : Rat))),
              ("pressed".data, J.arr (mouse.pressed.map fun b => J.num (b : Rat))),
              ("justPressed".data, J.arr []),
              ("justReleased".data, J.arr []),
              ("wheelDelta".data, J.num (mouse.wheelDelta : Rat))]),
     ("joystick".data,
       J.obj [("count".data, J.num (joy.count : Rat)),
              ("buttonsPressed".data,
                J.obj (joy.buttonsPressed.map fun kv =>
                  (kv.1, J.arr (kv.2.map fun b => J.num (b : Rat))))),
              ("axes".data,
                J.obj (joy.axes.map fun kv =>
                  (kv.1, J.arr (kv.2.map J.num))))]),
     ("engine".data,
       J.obj [("frame_rate".data, J.num a.engine.frameRate),
              ("current_frame".data, J.num (a.engine.currentFrame : Rat)),
              ("time_since_start".data, J.num a.engine.timeSinceStart)]),
     ("controller_name".data, J.str a.controllerName),
     ("sensors".data, J.obj sensorsDict)]

/-! ## Concrete states and predicates used by the claim theorems -/

/-- Whether a command will be skipped because its target object is missing:
its op is not one of the three global ops, and either no object name resolves
or the resolved name is absent from the batch scene. -/
def cmdTargetMissing (ctx : CtxInfo) (scName : Str) (h : Host) (cmd : J) : Bool :=
  match pyGetStr cmd "op".data with
  | none => false
  | some op =>
    if op = "endGame".data || op = "restartGame".data || op = "setGravity".data then false
    else
      match resolveObjName ctx cmd with
      | none => true
      | some n => (getObject h scName n).isNone

/-- Physics oracle with no hits and no physics ids (irrelevant to the
transform and property ops it accompanies). -/
def exPhys : PhysicsOracle :=
  { rayCast := fun _ _ => none, rayCastTo := fun _ _ => none, physicsId := fun _ => 0 }

/-- Host with one scene `Main` holding one object `Real`. -/
def c1Host : Host :=
  { scenes := [{ name := "Main".data, objects := [{ name := "Real".data }] }],
    currentSceneName := "Main".data }

/-- Invocation context naming no explicit scene and owner `Real`. -/
def c1Ctx : CtxInfo := { sceneName := [], objectName := "Real".data }

/-- `setPosition` aimed at the missing object `Ghost`. -/
def c1SetPosMissing : J :=
  J.obj [("op".data, J.str "setPosition".data),
         ("object".data, J.str "Ghost".data),
         ("value".data, J.arr [J.num 0, J.num 0, J.num 0])]

/-- `setProperty` setting `hp` to `5` on the existing object `Real`. -/
def c1SetProp : J :=
  J.obj [("op".data, J.str "setProperty".data),
         ("object".data, J.str "Real".data),
         ("property".data, J.str "hp".data),
         ("value".data, J.num 5)]

/-- The empty script context (`{}`). -/
def emptyCtx : J := J.obj []

/-- A user run that throws after queuing one command. -/
def throwingUser : UserRun :=
  { queued := [c1SetProp], thrown := some "Error: boom".data }

/-- Host for the C8 counterexample: scene `S1` (current, empty) and scene `S2`
holding object `O` at position `[1, 2, 3]`. -/
def c8Host : Host :=
  { scenes := [{ name := "S1".data, objects := [] },
               { name := "S2".data,
                 objects := [{ name := "O".data,
                               worldPosition := J.arr [J.num 1, J.num 2, J.num 3] }] }],
    currentSceneName := "S1".data }

/-- Invocation context bound to scene `S1`. -/
def c8Ctx : CtxInfo := { sceneName := "S1".data, objectName := "Owner".data }

/-- `setPosition` carrying an explicit `scene: "S2"` field for object `O`. -/
def c8Cmd : J :=
  J.obj [("op".data, J.str "setPosition".data),
         ("scene".data, J.str "S2".data),
         ("object".data, J.str "O".data),
         ("value".data, J.arr [J.num 4, J.num 5, J.num 6])]

/-- Modelled from the claim's words, not from the source: per-command scene
resolution — the command's explicit scene name when present (lookup in the
scene list), else the current scene. Stated only to exhibit the divergence
from the batch-level resolution the source performs. -/
def claimResolveScene (h : Host) (cmd : J) : Option Scene :=
  match pyGetStr cmd "scene".data with
  | some s => if s.isEmpty then findScene h h.currentSceneName else findScene h s
  | none => findScene h h.currentSceneName

/-- Physics oracle whose `rayCast` always reports a hit on object `Wall` at
the origin with a `+z` normal. -/
def c9Phys : PhysicsOracle :=
  { rayCast := fun _ _ =>
      some { objectName := some "Wall".data,
             point := some [J.num 0, J.num 0, J.num 0],
             normal := some [J.num 0, J.num 0, J.num 1] },
    rayCastTo := fun _ _ => none,
    physicsId := fun _ => 0 }

/-- Host with one scene holding the caster and a wall. -/
def c9Host : Host :=
  { scenes := [{ name := "Main".data,
                 objects := [{ name := "Caster".data,
                               worldPosition := J.arr [J.num 0, J.num 0, J.num 2] },
                             { name := "Wall".data }] }],
    currentSceneName := "Main".data }

/-- A `rayCast` command from `Caster` toward the origin. -/
def c9RayCmd : J :=
  J.obj [("op".data, J.str "rayCast".data),
         ("object".data, J.str "Caster".data),
         ("to".data, J.arr [J.num 0, J.num 0, J.num 0])]

/-- Invocation context for the ray-cast example. -/
def c9Ctx : CtxInfo := { sceneName := [], objectName := "Caster".data }

/-- Ambient state for a snapshot build over a host. -/
def c9Ambient (h : Host) : Ambient :=
  { host := h, ownerSceneName := "Main".data, ownerName := "Caster".data,
    controllerName := "ctrl".data }

/-- The stale id-1 marker line of the C7 counterexample, carrying one
`setProperty` command. -/
def c7StaleLine : Str :=
  cmdMarker ++ "1\t[\x7b\"op\":\"setProperty\"\x7d]".data

/-- The id-2 marker line of the C7 counterexample, carrying an empty queue. -/
def c7OwnLine : Str := cmdMarker ++ "2\t[]".data

/-! ## Helper lemmas -/

lemma isPrefixOf_append_self (l r : Str) : l.isPrefixOf (l ++ r) = true := by
  induction l with
  | nil => simp [List.isPrefixOf]
  | cons c cs ih => simp [List.isPrefixOf, ih]

lemma pyIn_append_self (l r : Str) : pyIn l (l ++ r) = true := by
  cases l with
  | nil => cases r <;> simp [pyIn, List.isPrefixOf]
  | cons c cs => simp [pyIn, isPrefixOf_append_self]

lemma findMarkerPayload_eq_nil (lines : List Str)
    (h : ∀ l ∈ lines, pyIn cmdMarker l = false) :
    findMarkerPayload lines = [] := by
  induction lines with
  | nil => rfl
  | cons l rest ih =>
    have h₁ := h l (List.mem_cons_self l rest)
    have h₂ := ih fun x hx => h x (List.mem_cons_of_mem _ hx)
    simp [findMarkerPayload, h₁, h₂]

/-! ## Claim theorems -/

/-- C2: for every process-output string, command extraction is total and
fails closed — when no line contains the marker, or the selected payload does
not decode, or it decodes to a non-array value, the result is the empty
command list; and the result depends only on the stdout text, never on the
process's stderr or exit code. -/
theorem c2_extraction_fails_closed (decode : Str → Option J) (output : Str) :
    ((∀ l ∈ pySplitlines output, pyIn cmdMarker l = false) →
      extractCommands decode output = [])
  ∧ (decode (findMarkerPayload (pySplitlines output)) = none →
      extractCommands decode output = [])
  ∧ (∀ v, decode (findMarkerPayload (pySplitlines output)) = some v →
      (∀ xs, v ≠ J.arr xs) → extractCommands decode output = [])
  ∧ (∀ e₁ e₂ s₁ s₂, extractFromResult decode ⟨output, e₁, s₁⟩
      = extractFromResult decode ⟨output, e₂, s₂⟩) := by
  refine ⟨?_, ?_, ?_, fun _ _ _ _ => rfl⟩
  · intro hnm
    unfold extractCommands
    rw [findMarkerPayload_eq_nil _ hnm]
    simp
  · intro hd
    unfold extractCommands
    by_cases ho : output.isEmpty
    · simp [ho]
    · by_cases hp : (findMarkerPayload (pySplitlines output)).isEmpty
      · simp [ho, hp]
      · simp [ho, hp, hd]
  · intro v hv hnarr
    unfold extractCommands
    by_cases ho : output.isEmpty
    · simp [ho]
    · by_cases hp : (findMarkerPayload (pySplitlines output)).isEmpty
      · simp [ho, hp]
      · cases v with
        | arr xs => exact absurd rfl (hnarr xs)
        | null => simp [ho, hp, hv]
        | bool b => simp [ho, hp, hv]
        | num q => simp [ho, hp, hv]
        | str s => simp [ho, hp, hv]
        | obj kvs => simp [ho, hp, hv]

/-- Witness for C2 at concrete inputs: a marker-free output, a marker line
with an undecodable payload, and a marker line whose payload decodes to the
non-array `42`. -/
theorem c2_extraction_fails_closed_witness :
    extractCommands jsonDecode "plain output line".data = []
  ∧ extractCommands jsonDecode "___BGE_CMDS___not json".data = []
  ∧ extractCommands jsonDecode "___BGE_CMDS___42".data = []
  ∧ extractFromResult jsonDecode ⟨"x".data, "err".data, true⟩
      = extractFromResult jsonDecode ⟨"x".data, [], false⟩ := by
  refine ⟨?_, ?_, ?_, ?_⟩
  · exact (c2_extraction_fails_closed jsonDecode _).1 (by decide)
  · exact (c2_extraction_fails_closed jsonDecode _).2.1 (by rfl)
  · exact (c2_extraction_fails_closed jsonDecode _).2.2.1
      (J.num ((42 : Nat) : Rat)) (by rfl) (fun xs h => J.noConfusion h)
  · exact (c2_extraction_fails_closed jsonDecode _).2.2.2 _ _ _ _

/-- C3: within one invocation, assigning `position` on a stand-in game object
only appends a `setPosition` command to the queue — it mutates nothing the
same invocation can read back, so a `position` read right after the setter
equals the read with no assignment at all. -/
theorem c3_setter_is_fire_and_forget (st : ScriptState) (target readName : Str) (v : J) :
    objGetPosition (objSetPosition st target v) readName = objGetPosition st readName
  ∧ (objSetPosition st target v).ctx = st.ctx
  ∧ ∃ c, (objSetPosition st target v).queue = st.queue ++ [c] :=
  ⟨rfl, rfl, _, rfl⟩

/-- C10: whenever the execution channel reports failure, the controller entry
point extracts nothing and applies nothing — the host state is returned
untouched and any queue in the output is discarded, while the error text (or
the fixed fallback message) is reported. -/
theorem c10_failure_leaves_host_untouched (decode : Str → Option J) (out err : Str)
    (phys : PhysicsOracle) (ctx : CtxInfo) (h : Host) :
    executeControllerScript decode ⟨out, err, false⟩ phys ctx h
      = ((false, some (if err.isEmpty then "Unknown JavaScript execution error".data
                       else err)), h) := rfl

lemma applyCmd_eq_of_target_missing (phys : PhysicsOracle) (ctx : CtxInfo)
    (scName : Str) (h : Host) (cmd : J)
    (hm : cmdTargetMissing ctx scName h cmd = true) :
    applyCmd phys ctx scName h cmd = h := by
  unfold cmdTargetMissing at hm
  unfold applyCmd
  cases hop : pyGetStr cmd "op".data with
  | none => simp [hop]
  | some op =>
    rw [hop] at hm
    by_cases hEnd : op = "endGame".data
    · simp [hEnd] at hm
    by_cases hRest : op = "restartGame".data
    · simp [hRest] at hm
    by_cases hGrav : op = "setGravity".data
    · simp [hGrav] at hm
    simp only [hEnd, hRest, hGrav, decide_False, Bool.or_self, Bool.false_or,
      Bool.or_false, if_false, Bool.false_eq_true, ite_false] at hm
    cases hobj : resolveObjName ctx cmd with
    | none => simp [hop, hEnd, hRest, hGrav, hobj]
    | some n =>
      rw [hobj] at hm
      simp only [Option.isNone_iff_eq_none] at hm
      simp [hop, hEnd, hRest, hGrav, hobj, hm]

/-- C1: a command whose target object is missing is skipped with no effect on
the host, and the interpreter loop always continues with the rest of the
batch after each command; in particular, for the batch
`[setPosition(Ghost, [0,0,0]), setProperty(Real, "hp", 5)]` over a scene
holding only `Real`, the property mutation is the batch's only effect. -/
theorem c1_per_command_failure_isolation :
    (∀ (phys : PhysicsOracle) (ctx : CtxInfo) (scName : Str) (h : Host)
        (cmd : J) (rest : List J),
        applyLoop phys ctx scName (cmd :: rest) h
          = applyLoop phys ctx scName rest (applyCmd phys ctx scName h cmd))
  ∧ (∀ (phys : PhysicsOracle) (ctx : CtxInfo) (scName : Str) (h : Host) (cmd : J),
        cmdTargetMissing ctx scName h cmd = true → applyCmd phys ctx scName h cmd = h)
  ∧ applyCommands exPhys c1Ctx [c1SetPosMissing, c1SetProp] c1Host
      = { c1Host with
          scenes := [{ name := "Main".data,
                       objects := [{ name := "Real".data,
                                     properties := [("hp".data, J.num 5)] }] }] } :=
  ⟨fun _ _ _ _ _ _ => rfl, applyCmd_eq_of_target_missing, rfl⟩

/-- Witness for C1: the `setPosition(Ghost, ...)` command of the example
batch has a missing target in the example host, and skipping it leaves the
host unchanged. -/
theorem c1_per_command_failure_isolation_witness :
    cmdTargetMissing c1Ctx "Main".data c1Host c1SetPosMissing = true
  ∧ applyCmd exPhys c1Ctx "Main".data c1Host c1SetPosMissing = c1Host :=
  ⟨by rfl, c1_per_command_failure_isolation.2.1 exPhys c1Ctx "Main".data c1Host
      c1SetPosMissing (by rfl)⟩

lemma pyIn_append_left (sub l r : Str) (h : pyIn sub r = true) :
    pyIn sub (l ++ r) = true := by
  induction l with
  | nil => simpa using h
  | cons c cs ih => simp [pyIn, ih]

lemma joinLines_cons_ne_nil (x : Str) (xs : List Str) :
    (joinLines (x :: xs)).isEmpty = false := by
  cases x <;> simp [joinLines, List.isEmpty]

lemma append_cons_isEmpty (l : Str) (c : Char) (r : Str) :
    (l ++ c :: r).isEmpty = false := by
  cases l <;> simp [List.isEmpty]

lemma splitLinesAux_append (l rest acc : Str) :
    '\n' ∉ l →
    splitLinesAux (l ++ '\n' :: rest) acc = (acc.reverse ++ l) :: splitLinesAux rest [] := by
  induction l generalizing acc with
  | nil => intro _; simp [splitLinesAux]
  | cons c cs ih =>
    intro h
    have hc : ¬(c = '\n') := fun hEq => h (by simp [hEq])
    have hcs : '\n' ∉ cs := fun hmem => h (List.mem_cons_of_mem _ hmem)
    simp only [List.cons_append, splitLinesAux, hc, if_false, ite_false, List.append_eq]
    rw [ih (c :: acc) hcs]
    simp

lemma pySplitlines_joinLines (ls : List Str) (h : ∀ l ∈ ls, '\n' ∉ l) :
    pySplitlines (joinLines ls) = ls := by
  induction ls with
  | nil => rfl
  | cons l rest ih =>
    have h₁ := h l (List.mem_cons_self l rest)
    have h₂ := ih fun x hx => h x (List.mem_cons_of_mem _ hx)
    unfold pySplitlines joinLines
    rw [splitLinesAux_append l _ [] h₁]
    simpa using h₂

lemma extract_nil_of_no_marker_lines (decode : Str → Option J) (ls : List Str)
    (hnl : ∀ l ∈ ls, '\n' ∉ l) (hnm : ∀ l ∈ ls, pyIn cmdMarker l = false) :
    extractCommands decode (joinLines ls) = [] := by
  unfold extractCommands
  rw [pySplitlines_joinLines ls hnl, findMarkerPayload_eq_nil ls hnm]
  simp

lemma findMarkerPayload_append_no_marker (pre rest : List Str)
    (h : ∀ l ∈ pre, pyIn cmdMarker l = false) :
    findMarkerPayload (pre ++ rest) = findMarkerPayload rest := by
  induction pre with
  | nil => rfl
  | cons l pre' ih =>
    have h₁ := h l (List.mem_cons_self l pre')
    simp only [List.cons_append, findMarkerPayload, h₁]
    simp only [Bool.false_eq_true, if_false, ite_false]
    exact ih fun x hx => h x (List.mem_cons_of_mem _ hx)

lemma readLoop_no_match (reqId : Str) (avail : List Str)
    (h : ∀ l ∈ avail, pyIn (cmdMarker ++ reqId) l = false) :
    readLoop reqId avail = avail := by
  induction avail with
  | nil => rfl
  | cons l rest ih =>
    have h₁ := h l (List.mem_cons_self l rest)
    have h₂ := ih fun x hx => h x (List.mem_cons_of_mem _ hx)
    simp [readLoop, h₁, h₂]

/-- C4 (amended): a script body that throws yields `success=false` with a
non-empty error text containing the thrown rendering in the ephemeral
transport only; the persistent-worker transport returns `success=true` with
empty error text whenever the worker was spawned and the request written,
whatever the script did — the thrown message only reaches the worker's unread
stderr pipe. -/
theorem c4_throw_reporting_per_transport :
    (∀ (ctx : J) (user : UserRun) (m : Str), user.thrown = some m →
        (executeWithContextEphemeral ctx user).success = false
      ∧ pyIn m (executeWithContextEphemeral ctx user).stderr = true
      ∧ (executeWithContextEphemeral ctx user).stderr.isEmpty = false)
  ∧ (∀ (avail : List Str) (w : WorkerState),
        (workerExecute true true avail w).1.success = true
      ∧ (workerExecute true true avail w).1.stderr = []) := by
  constructor
  · intro ctx user m hth
    have hstderr : (executeWithContextEphemeral ctx user).stderr
        = m ++ '\n' :: joinLines (match user.stack with | some s => [s] | none => []) := by
      unfold executeWithContextEphemeral runWrappedEphemeral
      rw [hth]
      simp [joinLines, append_cons_isEmpty]
    refine ⟨?_, ?_, ?_⟩
    · unfold executeWithContextEphemeral runWrappedEphemeral
      rw [hth]
      rfl
    · rw [hstderr]
      exact pyIn_append_self m _
    · rw [hstderr]
      exact append_cons_isEmpty m '\n' _
  · intro avail w
    unfold workerExecute ensureWorker
    by_cases hw : (w.hasProcess && w.alive) = true
    · simp [hw]
    · simp [hw]

/-- Counterexample for C4 as stated: in worker mode, the run of a script that
throws (`throwingUser`) returns `success=true` with empty error text — not
`success=false` with the thrown message. -/
theorem c4_counterexample :
    throwingUser.thrown = some "Error: boom".data
  ∧ (workerExecute true true
        (workerStdoutLines emptyCtx throwingUser "1".data) {}).1.success = true
  ∧ (workerExecute true true
        (workerStdoutLines emptyCtx throwingUser "1".data) {}).1.stderr = [] :=
  ⟨rfl, rfl, rfl⟩

/-- Witness for C4 (amended) at a concrete throwing run in each transport. -/
theorem c4_throw_reporting_per_transport_witness :
    (executeWithContextEphemeral emptyCtx throwingUser).success = false
  ∧ pyIn "Error: boom".data (executeWithContextEphemeral emptyCtx throwingUser).stderr = true
  ∧ (workerExecute true true ["log".data] {}).1.success = true := by
  have h₁ := c4_throw_reporting_per_transport.1 emptyCtx throwingUser "Error: boom".data rfl
  have h₂ := c4_throw_reporting_per_transport.2 ["log".data] {}
  exact ⟨h₁.1, h₁.2.1, h₂.1⟩

/-- C5 (amended): a worker call that sees no timely matching marker line —
worker death or deadline expiry — still returns `success=true` with the
partial output and keeps the session handle; `success=false` arises only when
spawning fails or the request write fails (which also drops the handle); a
dead worker is replaced only by the next call's ensure-worker check. -/
theorem c5_worker_death_reporting :
    (∀ (avail : List Str) (w : WorkerState), w.hasProcess = true → w.alive = true →
        (∀ l ∈ avail, pyIn (cmdMarker ++ natToStr (w.execId + 1)) l = false) →
        workerExecute true true avail w
          = ({ stdout := joinLines avail, stderr := [], success := true },
             { w with execId := w.execId + 1 }))
  ∧ (∀ (avail : List Str) (w : WorkerState), w.hasProcess = true → w.alive = true →
        workerExecute true false avail w
          = ({ stdout := [], stderr := "Broken pipe".data, success := false },
             { w with hasProcess := false, execId := w.execId + 1 }))
  ∧ (∀ w : WorkerState, w.alive = false →
        ensureWorker true w = (true, { w with hasProcess := true, alive := true })) := by
  refine ⟨?_, ?_, ?_⟩
  · intro avail w hp ha hnm
    have hrl := readLoop_no_match (natToStr (w.execId + 1)) avail hnm
    unfold workerExecute ensureWorker
    simp [hp, ha, hrl]
  · intro avail w hp ha
    unfold workerExecute ensureWorker
    simp [hp, ha]
  · intro w ha
    unfold ensureWorker
    simp [ha]

/-- Counterexample for C5 as stated: a live worker session whose stream holds
no marker line before the deadline — the claim demands a failure result, but
the call returns `success=true` with the partial output. -/
theorem c5_counterexample :
    (workerExecute true true ["worker log line".data]
        { hasProcess := true, alive := true, execId := 0 }).1
      = { stdout := "worker log line\n".data, stderr := [], success := true } := rfl

/-- Witness for C5 (amended) at a concrete no-marker stream, write failure,
and dead-worker respawn. -/
theorem c5_worker_death_reporting_witness :
    workerExecute true true ["worker log".data] { hasProcess := true, alive := true }
      = ({ stdout := "worker log\n".data, stderr := [], success := true },
         { hasProcess := true, alive := true, execId := 1 })
  ∧ workerExecute true false [] { hasProcess := true, alive := true }
      = ({ stdout := [], stderr := "Broken pipe".data, success := false },
         { hasProcess := false, alive := true, execId := 1 })
  ∧ ensureWorker true { hasProcess := true, alive := false, execId := 7 }
      = (true, { hasProcess := true, alive := true, execId := 7 }) := by
  refine ⟨?_, ?_, ?_⟩
  · exact c5_worker_death_reporting.1 ["worker log".data]
      { hasProcess := true, alive := true } rfl rfl (by decide)
  · exact c5_worker_death_reporting.2.1 [] { hasProcess := true, alive := true } rfl rfl
  · exact c5_worker_death_reporting.2.2 { hasProcess := true, alive := false, execId := 7 } rfl

/-- C6 (amended): on an uncaught user exception the outer boundary writes the
thrown rendering (and stack) to the error stream and the process exits
non-zero, but the marker line is never emitted — the emission follows the
user-code IIFE and the catch handler calls `process.exit(1)` first — so the
commands queued before the failure are lost: extraction over such a run's
stdout yields the empty list whenever the remaining lines (debug block and
user prints) contain no marker of their own. -/
theorem c6_partial_queue_lost_on_throw :
    ∀ (ctx : J) (user : UserRun) (m : Str), user.thrown = some m →
      (executeWithContextEphemeral ctx user).success = false
    ∧ pyIn m (executeWithContextEphemeral ctx user).stderr = true
    ∧ ((∀ l ∈ debugCtxLines ctx ++ user.printed, '\n' ∉ l ∧ pyIn cmdMarker l = false) →
        extractCommands jsonDecode (executeWithContextEphemeral ctx user).stdout = []) := by
  intro ctx user m hth
  have hstderr : (executeWithContextEphemeral ctx user).stderr
      = m ++ '\n' :: joinLines (match user.stack with | some s => [s] | none => []) := by
    unfold executeWithContextEphemeral runWrappedEphemeral
    rw [hth]
    simp [joinLines, append_cons_isEmpty]
  have hstdout : (executeWithContextEphemeral ctx user).stdout
      = joinLines (debugCtxLines ctx ++ user.printed) := by
    unfold executeWithContextEphemeral runWrappedEphemeral
    rw [hth]
    rfl
  refine ⟨?_, ?_, ?_⟩
  · unfold executeWithContextEphemeral runWrappedEphemeral
    rw [hth]
    rfl
  · rw [hstderr]
    exact pyIn_append_self m _
  · intro hlines
    rw [hstdout]
    exact extract_nil_of_no_marker_lines jsonDecode _
      (fun l hl => (hlines l hl).1) (fun l hl => (hlines l hl).2)

/-- Counterexample for C6 as stated: a run that queued one command and then
threw — the process output contains no marker at all and extraction recovers
nothing, so the partial queue is lost, against the claim's "the marker line
is still emitted". -/
theorem c6_counterexample :
    throwingUser.queued = [c1SetProp]
  ∧ (executeWithContextEphemeral emptyCtx throwingUser).success = false
  ∧ pyIn cmdMarker (executeWithContextEphemeral emptyCtx throwingUser).stdout = false
  ∧ extractCommands jsonDecode (executeWithContextEphemeral emptyCtx throwingUser).stdout
      = [] :=
  ⟨rfl, rfl, rfl, rfl⟩

/-- Witness for C6 (amended) at the concrete throwing run. -/
theorem c6_partial_queue_lost_on_throw_witness :
    (executeWithContextEphemeral emptyCtx throwingUser).success = false
  ∧ extractCommands jsonDecode (executeWithContextEphemeral emptyCtx throwingUser).stdout
      = [] := by
  have h := c6_partial_queue_lost_on_throw emptyCtx throwingUser "Error: boom".data rfl
  exact ⟨h.1, h.2.2 (by decide)⟩

/-- C7 (amended): while a request's read loop only ever stops at a line
bearing its own id's marker, delivery is not id-filtered — extraction takes
the first marker line of the collected output. When no stale marker line
precedes the request's own (every earlier collected line is marker-free), the
delivered commands are those of its own line; but a marker line left unread
by an earlier timed-out request is collected first and its commands are
delivered to the later request instead (see the counterexample). -/
theorem c7_no_cross_delivery_without_stale_lines :
    ∀ (reqId : Str) (pre post : List Str) (own : Str),
      (∀ l ∈ pre, pyIn cmdMarker l = false) →
      (∀ l ∈ pre, '\n' ∉ l) → '\n' ∉ own →
      pyIn cmdMarker own = true → pyIn (cmdMarker ++ reqId) own = true →
      readLoop reqId (pre ++ own :: post) = pre ++ [own]
    ∧ workerDelivered reqId (pre ++ own :: post) = workerDelivered reqId [own] := by
  intro reqId pre post own hpm hpn hon hm₁ hm₂
  have hloop : readLoop reqId (pre ++ own :: post) = pre ++ [own] := by
    induction pre with
    | nil => simp [readLoop, hm₁, hm₂]
    | cons l pre' ih =>
      have h₁ := hpm l (List.mem_cons_self l pre')
      have ih' := ih (fun x hx => hpm x (List.mem_cons_of_mem _ hx))
        (fun x hx => hpn x (List.mem_cons_of_mem _ hx))
      simp [readLoop, h₁, ih']
  refine ⟨hloop, ?_⟩
  unfold workerDelivered
  rw [hloop]
  have hownLoop : readLoop reqId [own] = [own] := by simp [readLoop, hm₁, hm₂]
  rw [hownLoop]
  unfold extractCommands
  have hnl : ∀ l ∈ pre ++ [own], '\n' ∉ l := by
    intro l hl
    rcases List.mem_append.mp hl with h | h
    · exact hpn l h
    · simp only [List.mem_singleton] at h
      rw [h]; exact hon
  have hnl₂ : ∀ l ∈ [own], '\n' ∉ l := by
    intro l hl
    simp only [List.mem_singleton] at hl
    rw [hl]; exact hon
  rw [pySplitlines_joinLines _ hnl, pySplitlines_joinLines _ hnl₂,
    findMarkerPayload_append_no_marker pre [own] hpm]
  have hje₁ : (joinLines (pre ++ [own])).isEmpty = false := by
    cases pre with
    | nil => exact joinLines_cons_ne_nil own []
    | cons a b => exact joinLines_cons_ne_nil a _
  rw [hje₁, joinLines_cons_ne_nil own []]

/-- Counterexample for C7 as stated: request 2's read loop collects the stale
id-1 marker line (it does not stop there — but it keeps it) and extraction
then delivers id 1's `setProperty` command to request 2, although request 2's
own id-tagged line carries the empty queue. -/
theorem c7_counterexample :
    workerDelivered "2".data [c7StaleLine, c7OwnLine]
      = [J.obj [("op".data, J.str "setProperty".data)]]
  ∧ extractCommands jsonDecode (joinLines [c7OwnLine]) = [] :=
  ⟨rfl, rfl⟩

/-- Witness for C7 (amended) at a concrete stale-free stream. -/
theorem c7_no_cross_delivery_without_stale_lines_witness :
    readLoop "2".data ["log line".data, c7OwnLine] = ["log line".data, c7OwnLine]
  ∧ workerDelivered "2".data ["log line".data, c7OwnLine]
      = workerDelivered "2".data [c7OwnLine] := by
  have h := c7_no_cross_delivery_without_stale_lines "2".data ["log line".data] []
    c7OwnLine (by decide) (by decide) (by decide) (by rfl) (by rfl)
  exact ⟨h.1, h.2⟩

lemma assocFind_assocSet_ne {α : Type} (kvs : List (Str × α)) (k : Str) (v : α)
    (k' : Str) (h : k' ≠ k) :
    assocFind (assocSet kvs k v) k' = assocFind kvs k' := by
  induction kvs with
  | nil => simp [assocSet, assocFind, Ne.symm h]
  | cons p rest ih =>
    obtain ⟨k₀, v₀⟩ := p
    by_cases hk : k₀ = k
    · subst hk
      simp [assocSet, assocFind, Ne.symm h]
    · by_cases hk' : k₀ = k'
      · simp [assocSet, assocFind, hk, hk', h]
      · simp [assocSet, assocFind, hk, hk', ih]

lemma pyGet_jSetKey_ne (cmd : J) (k : Str) (v : J) (k' : Str) (h : k' ≠ k) :
    pyGet (jSetKey cmd k v) k' = pyGet cmd k' := by
  cases cmd with
  | obj kvs => simp [jSetKey, pyGet, jLookup, assocFind_assocSet_ne kvs k v k' h]
  | null => rfl
  | bool b => rfl
  | num q => rfl
  | str s => rfl
  | arr xs => rfl

lemma pyGetJ_jSetKey_ne (cmd : J) (k : Str) (v : J) (k' : Str) (h : k' ≠ k) :
    pyGetJ (jSetKey cmd k v) k' = pyGetJ cmd k' := by
  unfold pyGetJ
  rw [pyGet_jSetKey_ne cmd k v k' h]

lemma pyGetStr_jSetKey_ne (cmd : J) (k : Str) (v : J) (k' : Str) (h : k' ≠ k) :
    pyGetStr (jSetKey cmd k v) k' = pyGetStr cmd k' := by
  unfold pyGetStr
  rw [pyGet_jSetKey_ne cmd k v k' h]

lemma numOrMissing_jSetKey_ne (cmd : J) (k : Str) (v : J) (k' : Str) (h : k' ≠ k) :
    numOrMissing (jSetKey cmd k v) k' = numOrMissing cmd k' := by
  unfold numOrMissing
  rw [pyGet_jSetKey_ne cmd k v k' h]

lemma resolveObjName_sceneIrrel (ctx : CtxInfo) (cmd v : J) :
    resolveObjName ctx (jSetKey cmd (['s','c','e','n','e'] : Str) v) = resolveObjName ctx cmd := by
  unfold resolveObjName
  rw [pyGet_jSetKey_ne cmd "scene".data v "object".data (by decide)]

lemma applySetGravity_sceneIrrel (cmd v : J) (h : Host) :
    applySetGravity (jSetKey cmd (['s','c','e','n','e'] : Str) v) h = applySetGravity cmd h := by
  unfold applySetGravity
  rw [pyGetJ_jSetKey_ne cmd "scene".data v "vec".data (by decide),
    pyGetJ_jSetKey_ne cmd "scene".data v "value".data (by decide)]

lemma applyActivate_sceneIrrel (isAct : Bool) (ctx : CtxInfo) (objName : Str)
    (cmd v : J) (h : Host) :
    applyActivate isAct ctx objName (jSetKey cmd (['s','c','e','n','e'] : Str) v) h
      = applyActivate isAct ctx objName cmd h := by
  unfold applyActivate
  rw [pyGet_jSetKey_ne cmd "scene".data v "actuator".data (by decide)]

lemma rayCastArgsOf_sceneIrrel (cmd v : J) :
    rayCastArgsOf (jSetKey cmd (['s','c','e','n','e'] : Str) v) = rayCastArgsOf cmd := by
  unfold rayCastArgsOf
  rw [pyGetJ_jSetKey_ne cmd "scene".data v "to".data (by decide),
    pyGetJ_jSetKey_ne cmd "scene".data v "from".data (by decide),
    pyGetJ_jSetKey_ne cmd "scene".data v "dist".data (by decide),
    pyGetJ_jSetKey_ne cmd "scene".data v "prop".data (by decide),
    pyGetJ_jSetKey_ne cmd "scene".data v "face".data (by decide),
    pyGetJ_jSetKey_ne cmd "scene".data v "xray".data (by decide),
    pyGetJ_jSetKey_ne cmd "scene".data v "mask".data (by decide)]

lemma applyRayCast_sceneIrrel (phys : PhysicsOracle) (objName : Str) (cmd v : J) (h : Host) :
    applyRayCast phys objName (jSetKey cmd (['s','c','e','n','e'] : Str) v) h
      = applyRayCast phys objName cmd h := by
  unfold applyRayCast
  rw [pyGetJ_jSetKey_ne cmd "scene".data v "to".data (by decide),
    rayCastArgsOf_sceneIrrel cmd v]

lemma rayToArgsOf_sceneIrrel (cmd v : J) :
    rayToArgsOf (jSetKey cmd (['s','c','e','n','e'] : Str) v) = rayToArgsOf cmd := by
  unfold rayToArgsOf
  rw [pyGetJ_jSetKey_ne cmd "scene".data v "target".data (by decide),
    pyGetJ_jSetKey_ne cmd "scene".data v "dist".data (by decide),
    pyGetJ_jSetKey_ne cmd "scene".data v "prop".data (by decide)]

lemma applyRayCastTo_sceneIrrel (phys : PhysicsOracle) (scName objName : Str)
    (cmd v : J) (h : Host) :
    applyRayCastTo phys scName objName (jSetKey cmd (['s','c','e','n','e'] : Str) v) h
      = applyRayCastTo phys scName objName cmd h := by
  unfold applyRayCastTo
  rw [pyGet_jSetKey_ne cmd "scene".data v "target".data (by decide),
    rayToArgsOf_sceneIrrel cmd v]

lemma applyVehicleForce_sceneIrrel (objName : Str) (cmd v : J) (h : Host) :
    applyVehicleForce objName (jSetKey cmd (['s','c','e','n','e'] : Str) v) h
      = applyVehicleForce objName cmd h := by
  unfold applyVehicleForce
  rw [numOrMissing_jSetKey_ne cmd "scene".data v "wheelIndex".data (by decide),
    numOrMissing_jSetKey_ne cmd "scene".data v "force".data (by decide),
    pyGetJ_jSetKey_ne cmd "scene".data v "wheelIndex".data (by decide),
    pyGetJ_jSetKey_ne cmd "scene".data v "force".data (by decide)]

lemma applyVehicleSteer_sceneIrrel (objName : Str) (cmd v : J) (h : Host) :
    applyVehicleSteer objName (jSetKey cmd (['s','c','e','n','e'] : Str) v) h
      = applyVehicleSteer objName cmd h := by
  unfold applyVehicleSteer
  rw [numOrMissing_jSetKey_ne cmd "scene".data v "wheelIndex".data (by decide),
    numOrMissing_jSetKey_ne cmd "scene".data v "value".data (by decide),
    pyGetJ_jSetKey_ne cmd "scene".data v "wheelIndex".data (by decide),
    pyGetJ_jSetKey_ne cmd "scene".data v "value".data (by decide)]

lemma vehicleWheelArgsOk_sceneIrrel (cmd v : J) :
    vehicleWheelArgsOk (jSetKey cmd (['s','c','e','n','e'] : Str) v) = vehicleWheelArgsOk cmd := by
  unfold vehicleWheelArgsOk
  rw [pyGetJ_jSetKey_ne cmd "scene".data v "attachPos".data (by decide),
    pyGetJ_jSetKey_ne cmd "scene".data v "connectionPoint".data (by decide),
    pyGetJ_jSetKey_ne cmd "scene".data v "downDir".data (by decide),
    pyGetJ_jSetKey_ne cmd "scene".data v "axleDir".data (by decide),
    numOrMissing_jSetKey_ne cmd "scene".data v "suspensionRestLength".data (by decide),
    numOrMissing_jSetKey_ne cmd "scene".data v "wheelRadius".data (by decide)]

lemma applyVehicleAddWheel_sceneIrrel (scName objName : Str) (cmd v : J) (h : Host) :
    applyVehicleAddWheel scName objName (jSetKey cmd (['s','c','e','n','e'] : Str) v) h
      = applyVehicleAddWheel scName objName cmd h := by
  unfold applyVehicleAddWheel
  rw [pyGet_jSetKey_ne cmd "scene".data v "wheel".data (by decide),
    vehicleWheelArgsOk_sceneIrrel cmd v]

lemma applyVehicleBrake_sceneIrrel (objName : Str) (cmd v : J) (h : Host) :
    applyVehicleBrake objName (jSetKey cmd (['s','c','e','n','e'] : Str) v) h
      = applyVehicleBrake objName cmd h := by
  unfold applyVehicleBrake
  rw [numOrMissing_jSetKey_ne cmd "scene".data v "wheelIndex".data (by decide),
    numOrMissing_jSetKey_ne cmd "scene".data v "force".data (by decide),
    pyGetJ_jSetKey_ne cmd "scene".data v "wheelIndex".data (by decide),
    pyGetJ_jSetKey_ne cmd "scene".data v "force".data (by decide)]

lemma applyCharacterWalk_sceneIrrel (objName : Str) (cmd v : J) (h : Host) :
    applyCharacterWalk objName (jSetKey cmd (['s','c','e','n','e'] : Str) v) h
      = applyCharacterWalk objName cmd h := by
  unfold applyCharacterWalk
  rw [pyGetJ_jSetKey_ne cmd "scene".data v "vec".data (by decide),
    pyGetJ_jSetKey_ne cmd "scene".data v "value".data (by decide)]

lemma applyCharacterVel_sceneIrrel (objName : Str) (cmd v : J) (h : Host) :
    applyCharacterVel objName (jSetKey cmd (['s','c','e','n','e'] : Str) v) h
      = applyCharacterVel objName cmd h := by
  unfold applyCharacterVel
  rw [pyGetJ_jSetKey_ne cmd "scene".data v "vec".data (by decide),
    pyGetJ_jSetKey_ne cmd "scene".data v "value".data (by decide),
    numOrMissing_jSetKey_ne cmd "scene".data v "time".data (by decide),
    pyGet_jSetKey_ne cmd "scene".data v "time".data (by decide),
    pyGetJ_jSetKey_ne cmd "scene".data v "local".data (by decide)]

lemma applyApplyMovement_sceneIrrel (objName : Str) (cmd v : J) (h : Host) :
    applyApplyMovement objName (jSetKey cmd (['s','c','e','n','e'] : Str) v) h
      = applyApplyMovement objName cmd h := by
  unfold applyApplyMovement
  rw [pyGetJ_jSetKey_ne cmd "scene".data v "vec".data (by decide),
    pyGetJ_jSetKey_ne cmd "scene".data v "value".data (by decide)]

lemma applySetPosition_sceneIrrel (scName objName : Str) (cmd v : J) (h : Host) :
    applySetPosition scName objName (jSetKey cmd (['s','c','e','n','e'] : Str) v) h
      = applySetPosition scName objName cmd h := by
  unfold applySetPosition
  rw [pyGet_jSetKey_ne cmd "scene".data v "value".data (by decide)]

lemma applySetRotation_sceneIrrel (scName objName : Str) (cmd v : J) (h : Host) :
    applySetRotation scName objName (jSetKey cmd (['s','c','e','n','e'] : Str) v) h
      = applySetRotation scName objName cmd h := by
  unfold applySetRotation
  rw [pyGet_jSetKey_ne cmd "scene".data v "value".data (by decide)]

lemma applyLookAt_sceneIrrel (scName objName : Str) (cmd v : J) (h : Host) :
    applyLookAt scName objName (jSetKey cmd (['s','c','e','n','e'] : Str) v) h
      = applyLookAt scName objName cmd h := by
  unfold applyLookAt
  rw [pyGet_jSetKey_ne cmd "scene".data v "target".data (by decide)]

lemma applySetScale_sceneIrrel (scName objName : Str) (cmd v : J) (h : Host) :
    applySetScale scName objName (jSetKey cmd (['s','c','e','n','e'] : Str) v) h
      = applySetScale scName objName cmd h := by
  unfold applySetScale
  rw [pyGet_jSetKey_ne cmd "scene".data v "value".data (by decide)]

lemma applySetProperty_sceneIrrel (scName objName : Str) (cmd v : J) (h : Host) :
    applySetProperty scName objName (jSetKey cmd (['s','c','e','n','e'] : Str) v) h
      = applySetProperty scName objName cmd h := by
  unfold applySetProperty
  rw [pyGet_jSetKey_ne cmd "scene".data v "property".data (by decide),
    pyGetJ_jSetKey_ne cmd "scene".data v "value".data (by decide)]

lemma applySetLocalPosition_sceneIrrel (scName objName : Str) (cmd v : J) (h : Host) :
    applySetLocalPosition scName objName (jSetKey cmd (['s','c','e','n','e'] : Str) v) h
      = applySetLocalPosition scName objName cmd h := by
  unfold applySetLocalPosition
  rw [pyGet_jSetKey_ne cmd "scene".data v "value".data (by decide)]

lemma applySetLocalRotation_sceneIrrel (scName objName : Str) (cmd v : J) (h : Host) :
    applySetLocalRotation scName objName (jSetKey cmd (['s','c','e','n','e'] : Str) v) h
      = applySetLocalRotation scName objName cmd h := by
  unfold applySetLocalRotation
  rw [pyGet_jSetKey_ne cmd "scene".data v "value".data (by decide)]

lemma applySetParent_sceneIrrel (scName objName : Str) (cmd v : J) (h : Host) :
    applySetParent scName objName (jSetKey cmd (['s','c','e','n','e'] : Str) v) h
      = applySetParent scName objName cmd h := by
  unfold applySetParent
  rw [pyGet_jSetKey_ne cmd "scene".data v "parent".data (by decide)]

lemma applySceneAddObject_sceneIrrel (ctx : CtxInfo) (scName : Str) (cmd v : J) (h : Host) :
    applySceneAddObject ctx scName (jSetKey cmd (['s','c','e','n','e'] : Str) v) h
      = applySceneAddObject ctx scName cmd h := by
  unfold applySceneAddObject
  rw [pyGet_jSetKey_ne cmd "scene".data v "object".data (by decide)]

lemma applySceneRemoveObject_sceneIrrel (scName : Str) (cmd v : J) (h : Host) :
    applySceneRemoveObject scName (jSetKey cmd (['s','c','e','n','e'] : Str) v) h
      = applySceneRemoveObject scName cmd h := by
  unfold applySceneRemoveObject
  rw [pyGet_jSetKey_ne cmd "scene".data v "object".data (by decide)]

lemma applySetViewport_sceneIrrel (objName : Str) (cmd v : J) (h : Host) :
    applySetViewport objName (jSetKey cmd (['s','c','e','n','e'] : Str) v) h
      = applySetViewport objName cmd h := by
  unfold applySetViewport
  rw [pyGet_jSetKey_ne cmd "scene".data v "left".data (by decide),
    pyGet_jSetKey_ne cmd "scene".data v "bottom".data (by decide),
    pyGet_jSetKey_ne cmd "scene".data v "right".data (by decide),
    pyGet_jSetKey_ne cmd "scene".data v "top".data (by decide)]

/-- C8 (amended): the interpreter resolves the batch scene once from the
invocation context, so each command's own `scene` field is ignored by every
handler except `setActiveCamera` — overwriting it changes nothing; the target
object, in contrast, is resolved per command: the command's `object` field
when it is a nonempty string, else the invocation's owner name, looked up in
the batch scene. -/
theorem c8_per_command_resolution :
    (∀ (phys : PhysicsOracle) (ctx : CtxInfo) (scName : Str) (h : Host) (cmd v : J),
        pyGetStr cmd "op".data ≠ some "setActiveCamera".data →
        applyCmd phys ctx scName h (jSetKey cmd "scene".data v)
          = applyCmd phys ctx scName h cmd)
  ∧ (∀ (ctx : CtxInfo) (cmd : J), pyGet cmd "object".data = none →
        resolveObjName ctx cmd = ctxObjFallback ctx)
  ∧ (∀ (ctx : CtxInfo) (cmd : J) (s : Str), pyGet cmd "object".data = some (J.str s) →
        s ≠ [] → resolveObjName ctx cmd = some s) := by
  refine ⟨?_, ?_, ?_⟩
  · intro phys ctx scName h cmd v hne
    have hgs : pyGetStr (jSetKey cmd "scene".data v) "op".data = pyGetStr cmd "op".data :=
      pyGetStr_jSetKey_ne cmd "scene".data v "op".data (by decide)
    have hro : resolveObjName ctx (jSetKey cmd "scene".data v) = resolveObjName ctx cmd :=
      resolveObjName_sceneIrrel ctx cmd v
    unfold applyCmd
    rw [hgs, hro]
    cases hop : pyGetStr cmd "op".data with
    | none => rfl
    | some op =>
      have hne' : ¬(op = "setActiveCamera".data) := fun hEq => hne (by rw [hop, hEq])
      simp only [applySetGravity_sceneIrrel, applyActivate_sceneIrrel,
        applyRayCast_sceneIrrel, applyRayCastTo_sceneIrrel,
        applyVehicleForce_sceneIrrel, applyVehicleSteer_sceneIrrel,
        applyVehicleAddWheel_sceneIrrel, applyVehicleBrake_sceneIrrel,
        applyCharacterWalk_sceneIrrel, applyCharacterVel_sceneIrrel,
        applyApplyMovement_sceneIrrel, applySetPosition_sceneIrrel,
        applySetRotation_sceneIrrel, applyLookAt_sceneIrrel,
        applySetScale_sceneIrrel, applySetProperty_sceneIrrel,
        applySetLocalPosition_sceneIrrel, applySetLocalRotation_sceneIrrel,
        applySetParent_sceneIrrel, applySceneAddObject_sceneIrrel,
        applySceneRemoveObject_sceneIrrel, applySetViewport_sceneIrrel, hne']
      simp [hne']
  · intro ctx cmd hget
    simp [resolveObjName, hget]
  · intro ctx cmd s hget hs
    cases s with
    | nil => exact absurd rfl hs
    | cons a t => simp [resolveObjName, hget]

/-- Counterexample for C8 as stated: over `c8Host` the command carries an
explicit `scene: "S2"` and targets `O`, which exists only in `S2`; per the
claim the resolution would pick `S2` (where the lookup succeeds) and move `O`
to `[4,5,6]`, but the code resolves the batch scene `S1` from the context,
finds no `O` there, and leaves the host unchanged. -/
theorem c8_counterexample :
    applyCommands exPhys c8Ctx [c8Cmd] c8Host = c8Host
  ∧ (claimResolveScene c8Host c8Cmd).map Scene.name = some "S2".data
  ∧ (getObject c8Host "S2".data "O".data).map GameObject.worldPosition
      = some (J.arr [J.num 1, J.num 2, J.num 3]) :=
  ⟨rfl, rfl, rfl⟩

/-- Witness for C8 (amended) at concrete inputs: overwriting the `scene`
field of the example `setProperty` command changes nothing, a command with no
`object` field falls back to the owner, and an explicit object name wins. -/
theorem c8_per_command_resolution_witness :
    applyCmd exPhys c1Ctx "Main".data c1Host
        (jSetKey c1SetProp "scene".data (J.str "Zed".data))
      = applyCmd exPhys c1Ctx "Main".data c1Host c1SetProp
  ∧ resolveObjName c1Ctx (J.obj []) = ctxObjFallback c1Ctx
  ∧ resolveObjName c1Ctx c1SetProp = some "Real".data := by
  refine ⟨?_, ?_, ?_⟩
  · exact c8_per_command_resolution.1 exPhys c1Ctx "Main".data c1Host c1SetProp
      (J.str "Zed".data) (by decide)
  · exact c8_per_command_resolution.2.1 c1Ctx (J.obj []) rfl
  · exact c8_per_command_resolution.2.2 c1Ctx c1SetProp "Real".data rfl (by decide)

/-- C9: the write half of the claim holds — a `rayCast` command stores its
hit (object name, point, normal) into the process-wide results table keyed by
the casting object's name — but the read half does not: the snapshot builder
reads nothing from the table (`_get_raycast_results` has no caller), so no
snapshot, of this or of any subsequent invocation, carries the stored
results; the built snapshot is invariant under arbitrary contents of the
table. -/
theorem c9_raycast_table_written_but_never_read :
    (applyCommands c9Phys c9Ctx [c9RayCmd] c9Host).raycastResults
      = [("Caster".data,
          { objectName := some "Wall".data,
            point := some [J.num 0, J.num 0, J.num 0],
            normal := some [J.num 0, J.num 0, J.num 1] })]
  ∧ ∀ (a : Ambient) (r : List (Str × RayHit)),
      buildContext { a with host := { a.host with raycastResults := r } }
        = buildContext a :=
  ⟨rfl, fun _ _ => rfl⟩

end UpbgeBridge
